import Mathlib

/-!
# Manifest factory of the virt-operator (`pkg/virt-operator/creation/components/deployments.go`)

A shallow embedding of the Go builders of `deployments.go` and a verification
of the properties stated for them.

Conventions of the embedding:

* Go `string` is `String`; `fmt.Sprintf` with only `%s` verbs is string concatenation.
* Go pointers are `Option`; `nil` is `none`.
* Go `map[string]string` is an association list with at most one entry per key
  (`GoMap`); a map literal inserts its entries from left to right.
* Go slices are `List`.
* A Go function returning `(T, error)` returns `Except Fault T`; an index out of
  range is the fault `Fault.panic`.
* Constants declared in imported packages of the repository (`virtv1`, `rbac`,
  `operatorutil`) are fields of the parameter `Consts`.
-/

set_option linter.dupNamespace false

namespace Components

/-! ## Strings -/

/-- Go `strings.HasPrefix(s, p)`: `s` starts with `p`. -/
def HasPrefix (s p : String) : Bool :=
  p.data.isPrefixOf s.data

/-- The string `s` begins with `p`: it is `p` followed by some rest. -/
def BeginsWith (s p : String) : Prop :=
  ∃ rest : String, s = p ++ rest

/-- The string `s` contains `p` as a contiguous part. -/
def ContainsStr (s p : String) : Prop :=
  ∃ before after : String, s = before ++ p ++ after

/-! ## Version formatter -/

/-- Go `AddVersionSeparatorPrefix`: a shasum gets "@", a template is left alone,
anything else (a tag) gets ":". -/
def AddVersionSeparatorPrefix (version : String) : String :=
  if HasPrefix version "sha256:" then
    "@" ++ version
  else if !HasPrefix version "\x7b\x7bif" then
    ":" ++ version
  else
    version

/-! ## Maps -/

/-- Go `map[string]string`: an association list; the builders below only create
maps through `GoMap.set`, which keeps one entry per key. -/
abbrev GoMap := List (String × String)

/-- Go `m[k]` with the comma-ok result. -/
def GoMap.get (m : GoMap) (k : String) : Option String :=
  match m with
  | [] => none
  | (k', v) :: rest => if k' = k then some v else GoMap.get rest k

/-- Go `m[k] = v`. -/
def GoMap.set (m : GoMap) (k v : String) : GoMap :=
  match m with
  | [] => [(k, v)]
  | (k', v') :: rest => if k' = k then (k, v) :: rest else (k', v') :: GoMap.set rest k v

/-- Go map literal `map[string]string{k1: v1, k2: v2, ...}`. -/
def mapLit (entries : List (String × String)) : GoMap :=
  entries.foldl (fun m e => m.set e.1 e.2) []

/-- Every key of `a` is a key of `b` with the same value. -/
def LabelsSubset (a b : GoMap) : Prop :=
  ∀ k v, a.get k = some v → b.get k = some v

/-! ## Results -/

/-- How a Go call can fail: by returning a non-nil `error`, or by a run-time panic. -/
inductive Fault where
  | error (msg : String)
  | panic (msg : String)
  deriving DecidableEq

/-! ## Constants of imported packages -/

/-- Go `schema.GroupVersion`. -/
structure GroupVersion where
  Group : String := ""
  Version : String := ""
  deriving DecidableEq

/-- Constants that `deployments.go` reads from the packages `virtv1`
(`kubevirt.io/client-go/api/v1`), `rbac` and `operatorutil`, whose declarations
are outside the source file. `virtv1.SubresourceGroupVersions` is a non-empty
table, given by its first entry and the remaining ones. -/
structure Consts where
  AppLabel : String
  SubresourceGroupVersionsHead : GroupVersion
  SubresourceGroupVersionsTail : List GroupVersion
  ApiServiceAccountName : String
  ControllerServiceAccountName : String
  HandlerServiceAccountName : String
  OperatorImageEnvName : String
  KubeVirtVersionEnvName : String
  VirtApiShasumEnvName : String
  VirtControllerShasumEnvName : String
  VirtHandlerShasumEnvName : String
  VirtLauncherShasumEnvName : String

/-- Go `virtv1.SubresourceGroupVersions`. -/
def Consts.SubresourceGroupVersions (k : Consts) : List GroupVersion :=
  k.SubresourceGroupVersionsHead :: k.SubresourceGroupVersionsTail

/-- Sample values for these constants, on which the builders are evaluated. -/
def kubevirtConsts : Consts where
  AppLabel := "kubevirt.io"
  SubresourceGroupVersionsHead := { Group := "subresources.kubevirt.io", Version := "v1alpha3" }
  SubresourceGroupVersionsTail := []
  ApiServiceAccountName := "kubevirt-apiserver"
  ControllerServiceAccountName := "kubevirt-controller"
  HandlerServiceAccountName := "kubevirt-handler"
  OperatorImageEnvName := "OPERATOR_IMAGE"
  KubeVirtVersionEnvName := "KUBEVIRT_VERSION"
  VirtApiShasumEnvName := "VIRT_API_SHASUM"
  VirtControllerShasumEnvName := "VIRT_CONTROLLER_SHASUM"
  VirtHandlerShasumEnvName := "VIRT_HANDLER_SHASUM"
  VirtLauncherShasumEnvName := "VIRT_LAUNCHER_SHASUM"

/-! ## Kubernetes API types (the fields the builders set) -/

/-- Go `corev1.PullPolicy`, a string type. -/
abbrev PullPolicy := String

def PullAlways : PullPolicy := "Always"
def PullNever : PullPolicy := "Never"
def PullIfNotPresent : PullPolicy := "IfNotPresent"
def ProtocolTCP : String := "TCP"
def URISchemeHTTPS : String := "HTTPS"
def ServiceTypeClusterIP : String := "ClusterIP"
def LabelSelectorOpIn : String := "In"
def TolerationOpExists : String := "Exists"
def MountPropagationBidirectional : String := "Bidirectional"
def RollingUpdateDaemonSetStrategyType : String := "RollingUpdate"
def RollingUpdateDeploymentStrategyType : String := "RollingUpdate"

structure TypeMeta where
  Kind : String := ""
  APIVersion : String := ""
  deriving DecidableEq

structure ObjectMeta where
  Name : String := ""
  Namespace : String := ""
  Labels : GoMap := []
  Annotations : GoMap := []
  deriving DecidableEq

/-- Go `intstr.Type`. -/
inductive IntstrType where
  | Int
  | String
  deriving DecidableEq

structure IntOrString where
  Type_ : IntstrType := IntstrType.Int
  IntVal : Int := 0
  StrVal : String := ""
  deriving DecidableEq

/-- Go `intstr.FromInt`. -/
def FromInt (val : Int) : IntOrString :=
  { Type_ := IntstrType.Int, IntVal := val }

structure LabelSelectorRequirement where
  Key : String := ""
  Operator : String := ""
  Values : List String := []
  deriving DecidableEq

structure LabelSelector where
  MatchLabels : GoMap := []
  MatchExpressions : List LabelSelectorRequirement := []
  deriving DecidableEq

structure ServicePort where
  Name : String := ""
  Protocol : String := ""
  Port : Int := 0
  TargetPort : IntOrString := {}
  deriving DecidableEq

structure ServiceSpec where
  Ports : List ServicePort := []
  Selector : GoMap := []
  Type_ : String := ""
  deriving DecidableEq

structure Service where
  TypeMeta : TypeMeta := {}
  ObjectMeta : ObjectMeta := {}
  Spec : ServiceSpec := {}
  deriving DecidableEq

structure PodAffinityTerm where
  LabelSelector : Option LabelSelector := none
  TopologyKey : String := ""
  deriving DecidableEq

structure WeightedPodAffinityTerm where
  Weight : Int := 0
  PodAffinityTerm : PodAffinityTerm := {}
  deriving DecidableEq

structure PodAntiAffinity where
  RequiredDuringSchedulingIgnoredDuringExecution : List PodAffinityTerm := []
  PreferredDuringSchedulingIgnoredDuringExecution : List WeightedPodAffinityTerm := []
  deriving DecidableEq

structure Affinity where
  PodAntiAffinity : Option PodAntiAffinity := none
  deriving DecidableEq

structure ContainerPort where
  Name : String := ""
  ContainerPort : Int := 0
  Protocol : String := ""
  deriving DecidableEq

structure HTTPGetAction where
  Path : String := ""
  Port : IntOrString := {}
  Scheme : String := ""
  deriving DecidableEq

structure Handler where
  HTTPGet : Option HTTPGetAction := none
  deriving DecidableEq

structure Probe where
  Handler : Handler := {}
  InitialDelaySeconds : Int := 0
  TimeoutSeconds : Int := 0
  PeriodSeconds : Int := 0
  FailureThreshold : Int := 0
  deriving DecidableEq

structure ObjectFieldSelector where
  FieldPath : String := ""
  deriving DecidableEq

structure EnvVarSource where
  FieldRef : Option ObjectFieldSelector := none
  deriving DecidableEq

structure EnvVar where
  Name : String := ""
  Value : String := ""
  ValueFrom : Option EnvVarSource := none
  deriving DecidableEq

structure VolumeMount where
  Name : String := ""
  MountPath : String := ""
  MountPropagation : Option String := none
  deriving DecidableEq

structure SecurityContext where
  Privileged : Option Bool := none
  deriving DecidableEq

structure Container where
  Name : String := ""
  Image : String := ""
  Command : List String := []
  Ports : List ContainerPort := []
  Env : List EnvVar := []
  VolumeMounts : List VolumeMount := []
  LivenessProbe : Option Probe := none
  ReadinessProbe : Option Probe := none
  ImagePullPolicy : PullPolicy := ""
  SecurityContext : Option SecurityContext := none
  deriving DecidableEq

structure HostPathVolumeSource where
  Path : String := ""
  deriving DecidableEq

structure VolumeSource where
  HostPath : Option HostPathVolumeSource := none
  deriving DecidableEq

structure Volume where
  Name : String := ""
  VolumeSource : VolumeSource := {}
  deriving DecidableEq

structure PodSecurityContext where
  RunAsNonRoot : Option Bool := none
  deriving DecidableEq

structure PodSpec where
  Volumes : List Volume := []
  Containers : List Container := []
  ServiceAccountName : String := ""
  HostPID : Bool := false
  SecurityContext : Option PodSecurityContext := none
  Affinity : Option Affinity := none
  deriving DecidableEq

structure PodTemplateSpec where
  ObjectMeta : ObjectMeta := {}
  Spec : PodSpec := {}
  deriving DecidableEq

structure DeploymentStrategy where
  Type_ : String := ""
  deriving DecidableEq

structure DeploymentSpec where
  Replicas : Option Int := none
  Selector : Option LabelSelector := none
  Template : PodTemplateSpec := {}
  Strategy : DeploymentStrategy := {}
  deriving DecidableEq

structure Deployment where
  TypeMeta : TypeMeta := {}
  ObjectMeta : ObjectMeta := {}
  Spec : DeploymentSpec := {}
  deriving DecidableEq

structure DaemonSetUpdateStrategy where
  Type_ : String := ""
  deriving DecidableEq

structure DaemonSetSpec where
  Selector : Option LabelSelector := none
  Template : PodTemplateSpec := {}
  UpdateStrategy : DaemonSetUpdateStrategy := {}
  deriving DecidableEq

structure DaemonSet where
  TypeMeta : TypeMeta := {}
  ObjectMeta : ObjectMeta := {}
  Spec : DaemonSetSpec := {}
  deriving DecidableEq

structure Toleration where
  Key : String := ""
  Operator : String := ""
  Value : String := ""
  Effect : String := ""
  TolerationSeconds : Option Int := none
  deriving DecidableEq

structure PodDisruptionBudgetSpec where
  MinAvailable : Option IntOrString := none
  Selector : Option LabelSelector := none
  deriving DecidableEq

structure PodDisruptionBudget where
  TypeMeta : TypeMeta := {}
  ObjectMeta : ObjectMeta := {}
  Spec : PodDisruptionBudgetSpec := {}
  deriving DecidableEq

/-! ## JSON serialisation of the toleration list (library `encoding/json`) -/

/-- The hexadecimal digit of a number below 16. -/
def hexDigit (n : Nat) : Char :=
  "0123456789abcdef".data.getD n '0'

/-- How `encoding/json` writes one character inside a JSON string (with HTML
escaping, the default of `json.Marshal`). -/
def jsonEscapeChar (c : Char) : String :=
  if c.toNat = 34 then "\\\""
  else if c.toNat = 92 then "\\\\"
  else if c.toNat = 10 then "\\n"
  else if c.toNat = 13 then "\\r"
  else if c.toNat = 9 then "\\t"
  else if c.toNat < 32 ∨ c.toNat = 60 ∨ c.toNat = 62 ∨ c.toNat = 38 then
    "\\u00" ++ String.mk [hexDigit (c.toNat / 16), hexDigit (c.toNat % 16)]
  else if c.toNat = 8232 then "\\u2028"
  else if c.toNat = 8233 then "\\u2029"
  else String.singleton c

/-- A Go string as a JSON string. -/
def jsonString (s : String) : String :=
  "\"" ++ String.join (s.data.map jsonEscapeChar) ++ "\""

/-- One `"name":value` member per non-empty field: every field of
`corev1.Toleration` is tagged `omitempty`. -/
def jsonTolerationMembers (t : Toleration) : List String :=
  (if t.Key = "" then [] else ["\"key\":" ++ jsonString t.Key]) ++
  (if t.Operator = "" then [] else ["\"operator\":" ++ jsonString t.Operator]) ++
  (if t.Value = "" then [] else ["\"value\":" ++ jsonString t.Value]) ++
  (if t.Effect = "" then [] else ["\"effect\":" ++ jsonString t.Effect]) ++
  (match t.TolerationSeconds with
   | none => []
   | some n => ["\"tolerationSeconds\":" ++ toString n])

/-- A `corev1.Toleration` as a JSON object. -/
def jsonToleration (t : Toleration) : String :=
  "\x7b" ++ ",".intercalate (jsonTolerationMembers t) ++ "\x7d"

/-- Go `json.Marshal` at the type `[]corev1.Toleration` (a type without
unsupported values or cycles, so no error is returned): the bytes, read as a
string, or the message of the error. The empty list stands for the nil slice. -/
def jsonMarshal (tolerations : List Toleration) : Except String String :=
  match tolerations with
  | [] => .ok "null"
  | ts => .ok ("[" ++ ",".intercalate (ts.map jsonToleration) ++ "]")

/-- Type of the serialiser that `criticalAddonsToleration` calls. -/
abbrev Marshal := List Toleration → Except String String

/-! ## Helpers of the builders -/

/-- Go `criticalAddonsToleration`, over the serialiser `marshal` (in the code,
`json.Marshal`). -/
def criticalAddonsToleration (marshal : Marshal) : Except String String :=
  let tolerations : List Toleration :=
    [ { Key := "CriticalAddonsOnly", Operator := TolerationOpExists } ]
  marshal tolerations

/-- Go `newPodTemplateSpec`. -/
def newPodTemplateSpec (marshal : Marshal) (k : Consts) (podName imageName repository version : String)
    (pullPolicy : PullPolicy) (podAffinity : Option Affinity) : Except Fault PodTemplateSpec :=
  let version := AddVersionSeparatorPrefix version
  match criticalAddonsToleration marshal with
  | .error err => .error (Fault.error ("unable to create toleration: " ++ err))
  | .ok tolerations =>
    .ok {
      ObjectMeta := {
        Labels := mapLit [(k.AppLabel, podName), ("prometheus.kubevirt.io", "")]
        Annotations := mapLit [
          ("scheduler.alpha.kubernetes.io/critical-pod", ""),
          ("scheduler.alpha.kubernetes.io/tolerations", tolerations)]
        Name := podName
      }
      Spec := {
        Affinity := podAffinity
        Containers := [
          { Name := podName
            Image := repository ++ "/" ++ imageName ++ version
            ImagePullPolicy := pullPolicy }
        ]
      }
    }

/-- Go `newBaseDeployment`. -/
def newBaseDeployment (marshal : Marshal) (k : Consts)
    (deploymentName imageName namespace_ repository version : String)
    (pullPolicy : PullPolicy) (podAffinity : Option Affinity) : Except Fault Deployment :=
  match newPodTemplateSpec marshal k deploymentName imageName repository version pullPolicy podAffinity with
  | .error err => .error err
  | .ok podTemplateSpec =>
    .ok {
      TypeMeta := { APIVersion := "apps/v1", Kind := "Deployment" }
      ObjectMeta := {
        Namespace := namespace_
        Name := deploymentName
        Labels := mapLit [(k.AppLabel, deploymentName)]
      }
      Spec := {
        Replicas := some 2
        Selector := some { MatchLabels := mapLit [("kubevirt.io", deploymentName)] }
        Template := podTemplateSpec
      }
    }

/-- Go `newPodAntiAffinity`. -/
def newPodAntiAffinity (key topologyKey : String) (operator : String) (values : List String) :
    Option Affinity :=
  some {
    PodAntiAffinity := some {
      PreferredDuringSchedulingIgnoredDuringExecution := [
        { Weight := 1
          PodAffinityTerm := {
            LabelSelector := some {
              MatchExpressions := [ { Key := key, Operator := operator, Values := values } ]
            }
            TopologyKey := topologyKey
          } }
      ]
    }
  }

/-- Message of the run-time panic of `s[0]` on an empty slice. -/
def indexOutOfRange : Fault :=
  Fault.panic "runtime error: index out of range [0] with length 0"

/-! ## Services -/

/-- Go `NewPrometheusService`. -/
def NewPrometheusService (k : Consts) (namespace_ : String) : Service :=
  { TypeMeta := { APIVersion := "v1", Kind := "Service" }
    ObjectMeta := {
      Namespace := namespace_
      Name := "kubevirt-prometheus-metrics"
      Labels := mapLit [(k.AppLabel, ""), ("prometheus.kubevirt.io", "")]
    }
    Spec := {
      Selector := mapLit [("prometheus.kubevirt.io", "")]
      Ports := [
        { Name := "metrics"
          Port := 443
          TargetPort := { Type_ := IntstrType.String, StrVal := "metrics" }
          Protocol := ProtocolTCP }
      ]
      Type_ := ServiceTypeClusterIP
    } }

/-- Go `NewApiServerService`. -/
def NewApiServerService (k : Consts) (namespace_ : String) : Service :=
  { TypeMeta := { APIVersion := "v1", Kind := "Service" }
    ObjectMeta := {
      Namespace := namespace_
      Name := "virt-api"
      Labels := mapLit [(k.AppLabel, "virt-api")]
    }
    Spec := {
      Selector := mapLit [(k.AppLabel, "virt-api")]
      Ports := [
        { Port := 443
          TargetPort := { Type_ := IntstrType.Int, IntVal := 8443 }
          Protocol := ProtocolTCP }
      ]
      Type_ := ServiceTypeClusterIP
    } }

/-! ## Workload builders -/

/-- Go `NewApiServerDeployment`. -/
def NewApiServerDeployment (marshal : Marshal) (k : Consts)
    (namespace_ repository imagePrefix version : String) (pullPolicy : PullPolicy)
    (verbosity : String) : Except Fault Deployment :=
  let podAntiAffinity :=
    newPodAntiAffinity "kubevirt.io" "kubernetes.io/hostname" LabelSelectorOpIn ["virt-api"]
  let deploymentName := "virt-api"
  let imageName := imagePrefix ++ deploymentName
  match newBaseDeployment marshal k deploymentName imageName namespace_ repository version
      pullPolicy podAntiAffinity with
  | .error err => .error err
  | .ok deployment =>
    let pod : PodSpec := { deployment.Spec.Template.Spec with
      ServiceAccountName := k.ApiServiceAccountName
      SecurityContext := some { RunAsNonRoot := some true } }
    match pod.Containers, k.SubresourceGroupVersions with
    | [], _ => .error indexOutOfRange
    | _, [] => .error indexOutOfRange
    | container :: others, groupVersion :: _ =>
      let container : Container := { container with
        Command := ["virt-api", "--port", "8443", "--console-server-port", "8186",
          "--subresources-only", "-v", verbosity]
        Ports := [
          { Name := "virt-api", Protocol := ProtocolTCP, ContainerPort := 8443 },
          { Name := "metrics", Protocol := ProtocolTCP, ContainerPort := 8443 } ]
        ReadinessProbe := some {
          Handler := {
            HTTPGet := some {
              Scheme := URISchemeHTTPS
              Port := { Type_ := IntstrType.Int, IntVal := 8443 }
              Path := "/apis/subresources.kubevirt.io/" ++ groupVersion.Version ++ "/healthz" } }
          InitialDelaySeconds := 15
          PeriodSeconds := 10 } }
      .ok { deployment with
        Spec := { deployment.Spec with
          Template := { deployment.Spec.Template with
            Spec := { pod with Containers := container :: others } } } }

/-- Go `NewControllerDeployment`. -/
def NewControllerDeployment (marshal : Marshal) (k : Consts)
    (namespace_ repository imagePrefix controllerVersion launcherVersion : String)
    (pullPolicy : PullPolicy) (verbosity : String) : Except Fault Deployment :=
  let podAntiAffinity :=
    newPodAntiAffinity "kubevirt.io" "kubernetes.io/hostname" LabelSelectorOpIn ["virt-controller"]
  let deploymentName := "virt-controller"
  let imageName := imagePrefix ++ deploymentName
  match newBaseDeployment marshal k deploymentName imageName namespace_ repository controllerVersion
      pullPolicy podAntiAffinity with
  | .error err => .error err
  | .ok deployment =>
    let pod : PodSpec := { deployment.Spec.Template.Spec with
      ServiceAccountName := k.ControllerServiceAccountName
      SecurityContext := some { RunAsNonRoot := some true } }
    let launcherVersion := AddVersionSeparatorPrefix launcherVersion
    match pod.Containers with
    | [] => .error indexOutOfRange
    | container :: others =>
      let container : Container := { container with
        Command := ["virt-controller", "--launcher-image",
          repository ++ "/" ++ imagePrefix ++ "virt-launcher" ++ launcherVersion,
          "--port", "8443", "-v", verbosity]
        Ports := [ { Name := "metrics", Protocol := ProtocolTCP, ContainerPort := 8443 } ]
        LivenessProbe := some {
          FailureThreshold := 8
          Handler := {
            HTTPGet := some {
              Scheme := URISchemeHTTPS
              Port := { Type_ := IntstrType.Int, IntVal := 8443 }
              Path := "/healthz" } }
          InitialDelaySeconds := 15
          TimeoutSeconds := 10 }
        ReadinessProbe := some {
          Handler := {
            HTTPGet := some {
              Scheme := URISchemeHTTPS
              Port := { Type_ := IntstrType.Int, IntVal := 8443 }
              Path := "/leader" } }
          InitialDelaySeconds := 15
          TimeoutSeconds := 10 } }
      .ok { deployment with
        Spec := { deployment.Spec with
          Template := { deployment.Spec.Template with
            Spec := { pod with Containers := container :: others } } } }

/-- Local type `volume` of `NewHandlerDaemonSet`. -/
structure volume where
  name : String
  path : String
  mountPropagation : Option String
  deriving DecidableEq

/-- The table `volumes` of `NewHandlerDaemonSet`. -/
def handlerVolumes : List volume :=
  let bidi := MountPropagationBidirectional
  [ ⟨"libvirt-runtimes", "/var/run/kubevirt-libvirt-runtimes", none⟩,
    ⟨"virt-share-dir", "/var/run/kubevirt", some bidi⟩,
    ⟨"virt-lib-dir", "/var/lib/kubevirt", none⟩,
    ⟨"virt-private-dir", "/var/run/kubevirt-private", none⟩,
    ⟨"device-plugin", "/var/lib/kubelet/device-plugins", none⟩ ]

/-- The loop `for _, volume := range volumes` of `NewHandlerDaemonSet`: one
mount and one volume are appended per entry. -/
def appendVolumes (volumes : List volume) (mounts : List VolumeMount) (vols : List Volume) :
    List VolumeMount × List Volume :=
  volumes.foldl
    (fun acc volume =>
      (acc.1 ++ [{ Name := volume.name
                   MountPath := volume.path
                   MountPropagation := volume.mountPropagation }],
       acc.2 ++ [{ Name := volume.name
                   VolumeSource := { HostPath := some { Path := volume.path } } }]))
    (mounts, vols)

/-- Go `NewHandlerDaemonSet`. -/
def NewHandlerDaemonSet (marshal : Marshal) (k : Consts)
    (namespace_ repository imagePrefix version : String) (pullPolicy : PullPolicy)
    (verbosity : String) : Except Fault DaemonSet :=
  let deploymentName := "virt-handler"
  let imageName := imagePrefix ++ deploymentName
  match newPodTemplateSpec marshal k deploymentName imageName repository version pullPolicy none with
  | .error err => .error err
  | .ok podTemplateSpec =>
    let daemonset : DaemonSet := {
      TypeMeta := { APIVersion := "apps/v1", Kind := "DaemonSet" }
      ObjectMeta := {
        Namespace := namespace_
        Name := "virt-handler"
        Labels := mapLit [(k.AppLabel, "virt-handler")]
      }
      Spec := {
        UpdateStrategy := { Type_ := RollingUpdateDaemonSetStrategyType }
        Selector := some { MatchLabels := mapLit [("kubevirt.io", "virt-handler")] }
        Template := podTemplateSpec
      } }
    let pod : PodSpec := { daemonset.Spec.Template.Spec with
      ServiceAccountName := k.HandlerServiceAccountName
      HostPID := true }
    match pod.Containers with
    | [] => .error indexOutOfRange
    | container :: others =>
      let container : Container := { container with
        Command := ["virt-handler", "--port", "8443", "--hostname-override", "$(NODE_NAME)",
          "--pod-ip-address", "$(MY_POD_IP)", "--max-metric-requests", "3",
          "--console-server-port", "8186", "-v", verbosity]
        Ports := [ { Name := "metrics", Protocol := ProtocolTCP, ContainerPort := 8443 } ]
        SecurityContext := some { Privileged := some true }
        Env := [
          { Name := "NODE_NAME"
            ValueFrom := some { FieldRef := some { FieldPath := "spec.nodeName" } } },
          { Name := "MY_POD_IP"
            ValueFrom := some { FieldRef := some { FieldPath := "status.podIP" } } } ] }
      let bound := appendVolumes handlerVolumes [] []
      let container : Container := { container with VolumeMounts := bound.1 }
      let pod : PodSpec := { pod with Volumes := bound.2, Containers := container :: others }
      .ok { daemonset with
        Spec := { daemonset.Spec with
          Template := { daemonset.Spec.Template with Spec := pod } } }

/-- Go `NewOperatorDeployment`. -/
def NewOperatorDeployment (marshal : Marshal) (k : Consts)
    (namespace_ repository imagePrefix version : String) (pullPolicy : PullPolicy)
    (verbosity kubeVirtVersionEnv virtApiShaEnv virtControllerShaEnv virtHandlerShaEnv
      virtLauncherShaEnv : String) : Except Fault Deployment :=
  let podAntiAffinity :=
    newPodAntiAffinity "kubevirt.io" "kubernetes.io/hostname" LabelSelectorOpIn ["virt-operator"]
  let name := "virt-operator"
  let version := AddVersionSeparatorPrefix version
  let image := repository ++ "/" ++ imagePrefix ++ name ++ version
  match criticalAddonsToleration marshal with
  | .error err => .error (Fault.error ("unable to create toleration: " ++ err))
  | .ok tolerations =>
    let deployment : Deployment := {
      TypeMeta := { APIVersion := "apps/v1", Kind := "Deployment" }
      ObjectMeta := {
        Namespace := namespace_
        Name := name
        Labels := mapLit [(k.AppLabel, name)]
      }
      Spec := {
        Replicas := some 2
        Selector := some { MatchLabels := mapLit [(k.AppLabel, name)] }
        Strategy := { Type_ := RollingUpdateDeploymentStrategyType }
        Template := {
          ObjectMeta := {
            Labels := mapLit [(k.AppLabel, name), ("prometheus.kubevirt.io", "")]
            Annotations := mapLit [
              ("scheduler.alpha.kubernetes.io/critical-pod", ""),
              ("scheduler.alpha.kubernetes.io/tolerations", tolerations)]
            Name := name
          }
          Spec := {
            Affinity := podAntiAffinity
            ServiceAccountName := "kubevirt-operator"
            Containers := [
              { Name := name
                Image := image
                ImagePullPolicy := pullPolicy
                Command := ["virt-operator", "--port", "8443", "-v", verbosity]
                Ports := [
                  { Name := "metrics", Protocol := ProtocolTCP, ContainerPort := 8443 },
                  { Name := "webhooks", Protocol := ProtocolTCP, ContainerPort := 8444 } ]
                ReadinessProbe := some {
                  Handler := {
                    HTTPGet := some {
                      Scheme := URISchemeHTTPS
                      Port := { Type_ := IntstrType.Int, IntVal := 8443 }
                      Path := "/metrics" } }
                  InitialDelaySeconds := 5
                  TimeoutSeconds := 10 }
                Env := [
                  { Name := k.OperatorImageEnvName, Value := image },
                  { Name := "WATCH_NAMESPACE"
                    ValueFrom := some { FieldRef := some {
                      FieldPath := "metadata.annotations['olm.targetNamespaces']" } } } ] }
            ]
            SecurityContext := some { RunAsNonRoot := some true }
          }
        }
      } }
    if virtApiShaEnv ≠ "" ∧ virtControllerShaEnv ≠ "" ∧ virtHandlerShaEnv ≠ "" ∧
        virtLauncherShaEnv ≠ "" ∧ kubeVirtVersionEnv ≠ "" then
      let shaSums : List EnvVar := [
        { Name := k.KubeVirtVersionEnvName, Value := kubeVirtVersionEnv },
        { Name := k.VirtApiShasumEnvName, Value := virtApiShaEnv },
        { Name := k.VirtControllerShasumEnvName, Value := virtControllerShaEnv },
        { Name := k.VirtHandlerShasumEnvName, Value := virtHandlerShaEnv },
        { Name := k.VirtLauncherShasumEnvName, Value := virtLauncherShaEnv } ]
      match deployment.Spec.Template.Spec.Containers with
      | [] => .error indexOutOfRange
      | container :: others =>
        let env := container.Env
        let env := env ++ shaSums
        .ok { deployment with
          Spec := { deployment.Spec with
            Template := { deployment.Spec.Template with
              Spec := { deployment.Spec.Template.Spec with
                Containers := { container with Env := env } :: others } } } }
    else
      .ok deployment

/-! ## Disruption budget -/

/-- Go `(*metav1.LabelSelector).DeepCopy`: nil for nil, else a fresh selector
with a copy of the map (entry by entry) and of every requirement. -/
def LabelSelector.DeepCopy (sel : Option LabelSelector) : Option LabelSelector :=
  match sel with
  | none => none
  | some s =>
    some {
      MatchLabels := s.MatchLabels.map (fun e => (e.1, e.2))
      MatchExpressions := s.MatchExpressions.map
        (fun r => { Key := r.Key, Operator := r.Operator, Values := r.Values.map id })
    }

/-- Go `NewPodDisruptionBudgetForDeployment`. -/
def NewPodDisruptionBudgetForDeployment (k : Consts) (deployment : Deployment) :
    PodDisruptionBudget :=
  let pdbName := deployment.ObjectMeta.Name ++ "-pdb"
  let minAvailable := FromInt 1
  let selector := LabelSelector.DeepCopy deployment.Spec.Selector
  { ObjectMeta := {
      Namespace := deployment.ObjectMeta.Namespace
      Name := pdbName
      Labels := mapLit [(k.AppLabel, pdbName)]
    }
    Spec := {
      MinAvailable := some minAvailable
      Selector := selector
    } }

/-! ## Reading a container command -/

/-- The argument that follows the first occurrence of `flag` in a command. -/
def argAfter (flag : String) : List String → Option String
  | [] => none
  | [_] => none
  | a :: b :: rest => if a = flag then some b else argAfter flag (b :: rest)

/-- State of the scan of one argument for variable references. -/
inductive ScanState where
  | outside
  | afterOperator
  | inName (acc : List Char)

/-- The variable references `$(NAME)` of an argument, in the syntax that
Kubernetes expands in a container command: `$$` is an escaped `$`, and a name
runs from `$(` to the next `)`. Code 36 is `$`, 40 and 41 are the brackets. -/
def scanReferences : ScanState → List Char → List String
  | _, [] => []
  | ScanState.outside, c :: cs =>
    if c.toNat = 36 then scanReferences ScanState.afterOperator cs
    else scanReferences ScanState.outside cs
  | ScanState.afterOperator, c :: cs =>
    if c.toNat = 40 then scanReferences (ScanState.inName []) cs
    else scanReferences ScanState.outside cs
  | ScanState.inName acc, c :: cs =>
    if c.toNat = 41 then String.mk acc.reverse :: scanReferences ScanState.outside cs
    else scanReferences (ScanState.inName (c :: acc)) cs

/-- The names referenced as `$(NAME)` in one argument. -/
def references (arg : String) : List String :=
  scanReferences ScanState.outside arg.data

/-- The names referenced as `$(NAME)` in a command, argument by argument. -/
def commandReferences (cmd : List String) : List String :=
  (cmd.map references).flatten

/-! ## Matching a label selector requirement -/

/-- Whether a set of labels satisfies a requirement, for the four operators of
`metav1.LabelSelectorOperator`. -/
def LabelSelectorRequirement.Matches (r : LabelSelectorRequirement) (labels : GoMap) : Bool :=
  if r.Operator = "In" then
    match labels.get r.Key with
    | none => false
    | some v => r.Values.contains v
  else if r.Operator = "NotIn" then
    match labels.get r.Key with
    | none => true
    | some v => !r.Values.contains v
  else if r.Operator = "Exists" then
    (labels.get r.Key).isSome
  else if r.Operator = "DoesNotExist" then
    (labels.get r.Key).isNone
  else
    false

/-! ## Disruption budget over a memory (pointers and aliasing made explicit)

The builders above are embedded over values, where a copy and its source cannot
be told apart. To state what `DeepCopy` is for, the selector is embedded a second
time over a memory: a `*metav1.LabelSelector` is the address of a cell, and a
map or a slice is nil or the address of its entries. An address is the position
of the cell in the memory, a natural number. -/

namespace Mem

/-- A `metav1.LabelSelectorRequirement` as stored in a slice: `Values` is nil or
the address of the backing array of strings. -/
structure RequirementCell where
  Key : String := ""
  Operator : String := ""
  Values : Option Nat := none
  deriving DecidableEq

/-- A `metav1.LabelSelector` struct in memory: `MatchLabels` is nil or the
address of a map, `MatchExpressions` is nil or the address of the backing array
of requirements. -/
structure SelectorCell where
  MatchLabels : Option Nat := none
  MatchExpressions : Option Nat := none
  deriving DecidableEq

/-- The memory: the selector structs, the maps, the arrays of requirements and
the arrays of strings allocated so far; an allocation appends a cell. -/
structure Memory where
  selectors : List SelectorCell := []
  maps : List GoMap := []
  requirements : List (List RequirementCell) := []
  strings : List (List String) := []
  deriving DecidableEq

/-- Go `(*LabelSelectorRequirement).DeepCopyInto`: the struct is copied, and a
non-nil `Values` gets a new backing array holding the same strings. -/
def RequirementCell.DeepCopy (m : Memory) (r : RequirementCell) : Memory × RequirementCell :=
  match r.Values with
  | none => (m, r)
  | some a =>
    ({ m with strings := m.strings ++ [m.strings.getD a []] },
     { r with Values := some m.strings.length })

/-- The loop of `(*LabelSelector).DeepCopyInto` over `MatchExpressions`. -/
def copyRequirements (m : Memory) : List RequirementCell → Memory × List RequirementCell
  | [] => (m, [])
  | r :: rs =>
    let step := RequirementCell.DeepCopy m r
    let rest := copyRequirements step.1 rs
    (rest.1, step.2 :: rest.2)

/-- Go `(*LabelSelector).DeepCopyInto`, returning the struct written to `out`:
a new map holding the same entries when `MatchLabels` is not nil, and a new
array of copied requirements when `MatchExpressions` is not nil. -/
def SelectorCell.DeepCopyInto (m : Memory) (src : SelectorCell) : Memory × SelectorCell :=
  let labels : Memory × Option Nat :=
    match src.MatchLabels with
    | none => (m, none)
    | some am =>
      ({ m with maps := m.maps ++ [(m.maps.getD am []).map (fun e => (e.1, e.2))] },
       some m.maps.length)
  let exprs : Memory × Option Nat :=
    match src.MatchExpressions with
    | none => (labels.1, none)
    | some ar =>
      let copied := copyRequirements labels.1 (labels.1.requirements.getD ar [])
      ({ copied.1 with requirements := copied.1.requirements ++ [copied.2] },
       some copied.1.requirements.length)
  (exprs.1, { MatchLabels := labels.2, MatchExpressions := exprs.2 })

/-- Go `(*LabelSelector).DeepCopy`: nil for nil; otherwise the address of a new
struct filled by `DeepCopyInto`. -/
def DeepCopy (m : Memory) (sel : Option Nat) : Memory × Option Nat :=
  match sel with
  | none => (m, none)
  | some a =>
    let out := SelectorCell.DeepCopyInto m (m.selectors.getD a {})
    ({ out.1 with selectors := out.1.selectors ++ [out.2] }, some out.1.selectors.length)

/-- The fields of `*appsv1.Deployment` that `NewPodDisruptionBudgetForDeployment`
reads: `Name`, `Namespace` and the pointer `Spec.Selector`. -/
structure DeploymentRef where
  Name : String := ""
  Namespace : String := ""
  Selector : Option Nat := none
  deriving DecidableEq

/-- A `*v1beta1.PodDisruptionBudget` whose `Spec.Selector` is a pointer. -/
structure BudgetRef where
  ObjectMeta : ObjectMeta := {}
  MinAvailable : Option IntOrString := none
  Selector : Option Nat := none
  deriving DecidableEq

/-- Go `NewPodDisruptionBudgetForDeployment`, over the memory: the memory after
the call and the budget. -/
def NewPodDisruptionBudgetForDeployment (k : Consts) (m : Memory) (deployment : DeploymentRef) :
    Memory × BudgetRef :=
  let pdbName := deployment.Name ++ "-pdb"
  let minAvailable := FromInt 1
  let selector := DeepCopy m deployment.Selector
  (selector.1,
   { ObjectMeta := {
       Namespace := deployment.Namespace
       Name := pdbName
       Labels := mapLit [(k.AppLabel, pdbName)]
     }
     MinAvailable := some minAvailable
     Selector := selector.2 })

/-- The requirement stored in a cell, with its values read from the memory. -/
def readRequirement (m : Memory) (r : RequirementCell) : LabelSelectorRequirement :=
  { Key := r.Key
    Operator := r.Operator
    Values := match r.Values with
      | none => []
      | some a => m.strings.getD a [] }

/-- The selector stored in a struct, with its map and its requirements read
from the memory. -/
def readCell (m : Memory) (cell : SelectorCell) : LabelSelector :=
  { MatchLabels := match cell.MatchLabels with
      | none => []
      | some am => m.maps.getD am []
    MatchExpressions := (match cell.MatchExpressions with
      | none => []
      | some ar => m.requirements.getD ar []).map (readRequirement m) }

/-- The selector a pointer stands for in a memory: everything reachable from it. -/
def readSelector (m : Memory) (sel : Option Nat) : Option LabelSelector :=
  match sel with
  | none => none
  | some a => some (readCell m (m.selectors.getD a {}))

/-- The budget as a value: its selector is read from the memory. -/
def readBudget (m : Memory) (b : BudgetRef) : PodDisruptionBudget :=
  { ObjectMeta := b.ObjectMeta
    Spec := { MinAvailable := b.MinAvailable, Selector := readSelector m b.Selector } }

/-- The deployment as a value, restricted to the fields that are read. -/
def readDeployment (m : Memory) (d : DeploymentRef) : Deployment :=
  { ObjectMeta := { Name := d.Name, Namespace := d.Namespace }
    Spec := { Selector := readSelector m d.Selector } }

/-- The array of values of a requirement, if any, is allocated in `m`. -/
def validRequirement (m : Memory) (r : RequirementCell) : Bool :=
  match r.Values with
  | none => true
  | some a => decide (a < m.strings.length)

/-- The map and the requirements of the struct, if any, are allocated in `m`. -/
def validCell (m : Memory) (cell : SelectorCell) : Bool :=
  (match cell.MatchLabels with
    | none => true
    | some am => decide (am < m.maps.length)) &&
  (match cell.MatchExpressions with
    | none => true
    | some ar =>
      decide (ar < m.requirements.length) &&
      (m.requirements.getD ar []).all (validRequirement m))

/-- Every address reachable from the pointer is allocated in `m` (Go has no
dangling pointer). -/
def validSelector (m : Memory) (sel : Option Nat) : Bool :=
  match sel with
  | none => true
  | some a => decide (a < m.selectors.length) && validCell m (m.selectors.getD a {})

/-- The memory `after` still holds every cell that was allocated between
`before` and `built`; the cells that existed in `before` may have been changed
in any way, and further cells may have been allocated. -/
def KeepsNewCells (before built after : Memory) : Prop :=
  (∀ a, before.selectors.length ≤ a → a < built.selectors.length →
    after.selectors.get? a = built.selectors.get? a) ∧
  (∀ a, before.maps.length ≤ a → a < built.maps.length →
    after.maps.get? a = built.maps.get? a) ∧
  (∀ a, before.requirements.length ≤ a → a < built.requirements.length →
    after.requirements.get? a = built.requirements.get? a) ∧
  (∀ a, before.strings.length ≤ a → a < built.strings.length →
    after.strings.get? a = built.strings.get? a)

/-- Go `sel.MatchLabels[key] = value` through the pointer `sel`: a nil pointer
and a nil map make the statement panic. -/
def setMatchLabel (m : Memory) (sel : Option Nat) (key value : String) : Except Fault Memory :=
  match sel with
  | none => .error (Fault.panic "invalid memory address or nil pointer dereference")
  | some a =>
    match (m.selectors.getD a {}).MatchLabels with
    | none => .error (Fault.panic "assignment to entry in nil map")
    | some am => .ok { m with maps := m.maps.set am ((m.maps.getD am []).set key value) }

/-- A memory with one selector that has a map of labels and one requirement. -/
def sampleMemory : Memory :=
  { selectors := [ { MatchLabels := some 0, MatchExpressions := some 0 } ]
    maps := [ [("kubevirt.io", "virt-api")] ]
    requirements := [ [ { Key := "tier", Operator := "In", Values := some 0 } ] ]
    strings := [ ["control-plane"] ] }

/-- A deployment whose selector is the selector of `sampleMemory`. -/
def sampleDeployment : DeploymentRef :=
  { Name := "virt-api", Namespace := "ns1", Selector := some 0 }

end Mem

/-! ## Lemmas on strings -/

theorem hasPrefix_iff (s p : String) : HasPrefix s p = true ↔ BeginsWith s p := by
  unfold HasPrefix BeginsWith
  rw [List.isPrefixOf_iff_prefix]
  constructor
  · rintro ⟨t, ht⟩
    refine ⟨⟨t⟩, ?_⟩
    apply String.ext
    simp [String.data_append, ht]
  · rintro ⟨rest, hrest⟩
    refine ⟨rest.data, ?_⟩
    rw [hrest, String.data_append]

/-! ## Version formatter: the three cases -/

/-- C1: `AddVersionSeparatorPrefix v` is "@" ++ v when v begins with "sha256:",
is v itself when v does not begin with "sha256:" but begins with the template
marker, and is ":" ++ v in every other case; the empty string gives ":", and the
three examples of the specification evaluate as stated. -/
theorem addVersionSeparatorPrefix_cases (v : String) :
    (BeginsWith v "sha256:" → AddVersionSeparatorPrefix v = "@" ++ v) ∧
    (¬ BeginsWith v "sha256:" → BeginsWith v "\x7b\x7bif" →
        AddVersionSeparatorPrefix v = v) ∧
    (¬ BeginsWith v "sha256:" → ¬ BeginsWith v "\x7b\x7bif" →
        AddVersionSeparatorPrefix v = ":" ++ v) ∧
    AddVersionSeparatorPrefix "" = ":" ∧
    AddVersionSeparatorPrefix "1.2.3" = ":1.2.3" ∧
    AddVersionSeparatorPrefix "sha256:abcd" = "@sha256:abcd" ∧
    AddVersionSeparatorPrefix "\x7b\x7bif .foo\x7d\x7dx\x7b\x7bend\x7d\x7d"
      = "\x7b\x7bif .foo\x7d\x7dx\x7b\x7bend\x7d\x7d" := by
  refine ⟨?_, ?_, ?_, by decide, by decide, by decide, by decide⟩
  · intro h
    have h1 := (hasPrefix_iff v "sha256:").2 h
    simp [AddVersionSeparatorPrefix, h1]
  · intro h h2
    have h1 : HasPrefix v "sha256:" = false := by
      rw [Bool.eq_false_iff]; exact fun hh => h ((hasPrefix_iff _ _).1 hh)
    have h3 := (hasPrefix_iff v "\x7b\x7bif").2 h2
    simp [AddVersionSeparatorPrefix, h1, h3]
  · intro h h2
    have h1 : HasPrefix v "sha256:" = false := by
      rw [Bool.eq_false_iff]; exact fun hh => h ((hasPrefix_iff _ _).1 hh)
    have h3 : HasPrefix v "\x7b\x7bif" = false := by
      rw [Bool.eq_false_iff]; exact fun hh => h2 ((hasPrefix_iff _ _).1 hh)
    simp [AddVersionSeparatorPrefix, h1, h3]

/-- C1 (witness): the three implications applied at a tag, read off at "1.2.3". -/
theorem addVersionSeparatorPrefix_cases_witness :
    AddVersionSeparatorPrefix "1.2.3" = ":" ++ "1.2.3" :=
  (addVersionSeparatorPrefix_cases "1.2.3").2.2.1
    (by rw [← hasPrefix_iff]; decide) (by rw [← hasPrefix_iff]; decide)

/-! ## Lemmas on maps -/

theorem labelsSubset_app (name : String) (k : Consts) (hApp : k.AppLabel = "kubevirt.io") :
    LabelsSubset (mapLit [("kubevirt.io", name)])
      (mapLit [(k.AppLabel, name), ("prometheus.kubevirt.io", "")]) := by
  intro key v
  rw [hApp]
  simp [mapLit, GoMap.set, GoMap.get]
  intro h1 h2
  simp [h1, h2]

theorem labelsSubset_app_own (name : String) (k : Consts) (hApp : k.AppLabel = "kubevirt.io") :
    LabelsSubset (mapLit [(k.AppLabel, name)])
      (mapLit [(k.AppLabel, name), ("prometheus.kubevirt.io", "")]) := by
  have h := labelsSubset_app name k hApp
  rw [hApp] at h ⊢
  exact h

/-! ## Selector and pod template labels -/

/-- C2: with `virtv1.AppLabel` equal to "kubevirt.io", each of the four workload
builders returns, for every input, an object whose selector's MatchLabels are a
subset (same key, same value) of the labels of its own pod template. -/
theorem selector_subset_template_labels (k : Consts) (hApp : k.AppLabel = "kubevirt.io")
    (ns repository imagePrefix version launcherVersion : String) (pullPolicy : PullPolicy)
    (verbosity kv a c h l : String) :
    (∃ d sel, NewApiServerDeployment jsonMarshal k ns repository imagePrefix version pullPolicy
        verbosity = .ok d ∧ d.Spec.Selector = some sel ∧
        LabelsSubset sel.MatchLabels d.Spec.Template.ObjectMeta.Labels) ∧
    (∃ d sel, NewControllerDeployment jsonMarshal k ns repository imagePrefix version
        launcherVersion pullPolicy verbosity = .ok d ∧ d.Spec.Selector = some sel ∧
        LabelsSubset sel.MatchLabels d.Spec.Template.ObjectMeta.Labels) ∧
    (∃ d sel, NewHandlerDaemonSet jsonMarshal k ns repository imagePrefix version pullPolicy
        verbosity = .ok d ∧ d.Spec.Selector = some sel ∧
        LabelsSubset sel.MatchLabels d.Spec.Template.ObjectMeta.Labels) ∧
    (∃ d sel, NewOperatorDeployment jsonMarshal k ns repository imagePrefix version pullPolicy
        verbosity kv a c h l = .ok d ∧ d.Spec.Selector = some sel ∧
        LabelsSubset sel.MatchLabels d.Spec.Template.ObjectMeta.Labels) := by
  refine ⟨⟨_, _, rfl, rfl, labelsSubset_app _ k hApp⟩, ⟨_, _, rfl, rfl, labelsSubset_app _ k hApp⟩,
    ⟨_, _, rfl, rfl, labelsSubset_app _ k hApp⟩, ?_⟩
  have hsub := labelsSubset_app_own "virt-operator" k hApp
  by_cases hc : a ≠ "" ∧ c ≠ "" ∧ h ≠ "" ∧ l ≠ "" ∧ kv ≠ ""
  · simp only [NewOperatorDeployment, criticalAddonsToleration, jsonMarshal, if_pos hc]
    exact ⟨_, _, rfl, rfl, hsub⟩
  · simp only [NewOperatorDeployment, criticalAddonsToleration, jsonMarshal, if_neg hc]
    exact ⟨_, _, rfl, rfl, hsub⟩

/-- C2 (witness): the invariant at the sample constants, whose app label is
"kubevirt.io", for the API server deployment of namespace "ns1". -/
theorem selector_subset_template_labels_witness :
    kubevirtConsts.AppLabel = "kubevirt.io" ∧
    ∃ d sel, NewApiServerDeployment jsonMarshal kubevirtConsts "ns1" "reg.io/org" "" "v1.0.0"
        PullAlways "2" = .ok d ∧ d.Spec.Selector = some sel ∧
        LabelsSubset sel.MatchLabels d.Spec.Template.ObjectMeta.Labels :=
  ⟨rfl, (selector_subset_template_labels kubevirtConsts rfl "ns1" "reg.io/org" "" "v1.0.0" ""
    PullAlways "2" "" "" "" "" "").1⟩

/-! ## The single container and its image -/

/-- C3: for every input, the pod template of each of the four workload builders
has exactly one container; its name is the component name, which is also the
name of the pod template; its image is
repository ++ "/" ++ imagePrefix ++ component ++ AddVersionSeparatorPrefix version;
its pull policy is the one given. -/
theorem single_container_image (k : Consts)
    (ns repository imagePrefix version launcherVersion : String) (pullPolicy : PullPolicy)
    (verbosity kv a c h l : String) :
    (∃ d ct, NewApiServerDeployment jsonMarshal k ns repository imagePrefix version pullPolicy
        verbosity = .ok d ∧ d.Spec.Template.Spec.Containers = [ct] ∧
        ct.Name = "virt-api" ∧ d.Spec.Template.ObjectMeta.Name = "virt-api" ∧
        ct.Image = repository ++ "/" ++ imagePrefix ++ "virt-api"
          ++ AddVersionSeparatorPrefix version ∧
        ct.ImagePullPolicy = pullPolicy) ∧
    (∃ d ct, NewControllerDeployment jsonMarshal k ns repository imagePrefix version
        launcherVersion pullPolicy verbosity = .ok d ∧ d.Spec.Template.Spec.Containers = [ct] ∧
        ct.Name = "virt-controller" ∧ d.Spec.Template.ObjectMeta.Name = "virt-controller" ∧
        ct.Image = repository ++ "/" ++ imagePrefix ++ "virt-controller"
          ++ AddVersionSeparatorPrefix version ∧
        ct.ImagePullPolicy = pullPolicy) ∧
    (∃ d ct, NewHandlerDaemonSet jsonMarshal k ns repository imagePrefix version pullPolicy
        verbosity = .ok d ∧ d.Spec.Template.Spec.Containers = [ct] ∧
        ct.Name = "virt-handler" ∧ d.Spec.Template.ObjectMeta.Name = "virt-handler" ∧
        ct.Image = repository ++ "/" ++ imagePrefix ++ "virt-handler"
          ++ AddVersionSeparatorPrefix version ∧
        ct.ImagePullPolicy = pullPolicy) ∧
    (∃ d ct, NewOperatorDeployment jsonMarshal k ns repository imagePrefix version pullPolicy
        verbosity kv a c h l = .ok d ∧ d.Spec.Template.Spec.Containers = [ct] ∧
        ct.Name = "virt-operator" ∧ d.Spec.Template.ObjectMeta.Name = "virt-operator" ∧
        ct.Image = repository ++ "/" ++ imagePrefix ++ "virt-operator"
          ++ AddVersionSeparatorPrefix version ∧
        ct.ImagePullPolicy = pullPolicy) := by
  refine ⟨⟨_, _, rfl, rfl, rfl, rfl, ?_, rfl⟩, ⟨_, _, rfl, rfl, rfl, rfl, ?_, rfl⟩,
    ⟨_, _, rfl, rfl, rfl, rfl, ?_, rfl⟩, ?_⟩
  · simp [String.append_assoc]
  · simp [String.append_assoc]
  · simp [String.append_assoc]
  · by_cases hc : a ≠ "" ∧ c ≠ "" ∧ h ≠ "" ∧ l ≠ "" ∧ kv ≠ ""
    · simp only [NewOperatorDeployment, criticalAddonsToleration, jsonMarshal, if_pos hc]
      exact ⟨_, _, rfl, rfl, rfl, rfl, rfl, rfl⟩
    · simp only [NewOperatorDeployment, criticalAddonsToleration, jsonMarshal, if_neg hc]
      exact ⟨_, _, rfl, rfl, rfl, rfl, rfl, rfl⟩

/-! ## Operator: all-or-nothing pinning -/

/-- C4: the no-pinning call of `NewOperatorDeployment` (five empty pinning
strings) returns a deployment whose container has 2 environment variables.
When all five pinning strings are non-empty, the container's Env is that list
followed by the five variables carrying the values in the order version, api,
controller, handler, launcher (7 entries, 5 more). When at least one of the five
is empty, the returned deployment is equal to the one of the no-pinning call. -/
theorem operator_pinning_all_or_nothing (k : Consts)
    (ns repository imagePrefix version : String) (pullPolicy : PullPolicy)
    (verbosity kubeVirtVersionEnv virtApiShaEnv virtControllerShaEnv virtHandlerShaEnv
      virtLauncherShaEnv : String) :
    ∃ d0 c0, NewOperatorDeployment jsonMarshal k ns repository imagePrefix version pullPolicy
        verbosity "" "" "" "" "" = .ok d0 ∧
      d0.Spec.Template.Spec.Containers = [c0] ∧ c0.Env.length = 2 ∧
      ((kubeVirtVersionEnv ≠ "" ∧ virtApiShaEnv ≠ "" ∧ virtControllerShaEnv ≠ "" ∧
          virtHandlerShaEnv ≠ "" ∧ virtLauncherShaEnv ≠ "") →
        ∃ d c1, NewOperatorDeployment jsonMarshal k ns repository imagePrefix version pullPolicy
            verbosity kubeVirtVersionEnv virtApiShaEnv virtControllerShaEnv virtHandlerShaEnv
            virtLauncherShaEnv = .ok d ∧
          d.Spec.Template.Spec.Containers = [c1] ∧
          c1.Env = c0.Env ++ [
            { Name := k.KubeVirtVersionEnvName, Value := kubeVirtVersionEnv },
            { Name := k.VirtApiShasumEnvName, Value := virtApiShaEnv },
            { Name := k.VirtControllerShasumEnvName, Value := virtControllerShaEnv },
            { Name := k.VirtHandlerShasumEnvName, Value := virtHandlerShaEnv },
            { Name := k.VirtLauncherShasumEnvName, Value := virtLauncherShaEnv } ] ∧
          c1.Env.length = 7 ∧ c1.Env.length = c0.Env.length + 5) ∧
      ((kubeVirtVersionEnv = "" ∨ virtApiShaEnv = "" ∨ virtControllerShaEnv = "" ∨
          virtHandlerShaEnv = "" ∨ virtLauncherShaEnv = "") →
        NewOperatorDeployment jsonMarshal k ns repository imagePrefix version pullPolicy
            verbosity kubeVirtVersionEnv virtApiShaEnv virtControllerShaEnv virtHandlerShaEnv
            virtLauncherShaEnv = .ok d0) := by
  refine ⟨_, _, rfl, rfl, rfl, ?_, ?_⟩
  · rintro ⟨hv, ha, hc, hh, hl⟩
    have hcond : virtApiShaEnv ≠ "" ∧ virtControllerShaEnv ≠ "" ∧ virtHandlerShaEnv ≠ "" ∧
        virtLauncherShaEnv ≠ "" ∧ kubeVirtVersionEnv ≠ "" := ⟨ha, hc, hh, hl, hv⟩
    simp only [NewOperatorDeployment, criticalAddonsToleration, jsonMarshal, if_pos hcond]
    exact ⟨_, _, rfl, rfl, rfl, rfl, rfl⟩
  · intro hempty
    have hcond : ¬ (virtApiShaEnv ≠ "" ∧ virtControllerShaEnv ≠ "" ∧ virtHandlerShaEnv ≠ "" ∧
        virtLauncherShaEnv ≠ "" ∧ kubeVirtVersionEnv ≠ "") := by
      rintro ⟨ha, hc, hh, hl, hv⟩
      rcases hempty with h | h | h | h | h
      · exact hv h
      · exact ha h
      · exact hc h
      · exact hh h
      · exact hl h
    simp only [NewOperatorDeployment, criticalAddonsToleration, jsonMarshal, if_neg hcond]

/-- C4 (witness): with the five pinning strings "v", "a", "c", "h", "l" the
operator container has 7 environment variables, and with the handler digest
missing the deployment is the one of the no-pinning call. -/
theorem operator_pinning_all_or_nothing_witness :
    (∃ d c1, NewOperatorDeployment jsonMarshal kubevirtConsts "ns1" "reg.io/org" "" "v1.0.0"
        PullAlways "2" "v" "a" "c" "h" "l" = .ok d ∧
      d.Spec.Template.Spec.Containers = [c1] ∧ c1.Env.length = 7) ∧
    NewOperatorDeployment jsonMarshal kubevirtConsts "ns1" "reg.io/org" "" "v1.0.0"
        PullAlways "2" "v" "a" "c" "" "l" =
      NewOperatorDeployment jsonMarshal kubevirtConsts "ns1" "reg.io/org" "" "v1.0.0"
        PullAlways "2" "" "" "" "" "" := by
  constructor
  · obtain ⟨d0, c0, _, _, _, hall, _⟩ :=
      operator_pinning_all_or_nothing kubevirtConsts "ns1" "reg.io/org" "" "v1.0.0"
        PullAlways "2" "v" "a" "c" "h" "l"
    obtain ⟨d, c1, hd, hc1, _, hlen, _⟩ := hall (by decide)
    exact ⟨d, c1, hd, hc1, hlen⟩
  · obtain ⟨d0, c0, h0, _, _, _, hany⟩ :=
      operator_pinning_all_or_nothing kubevirtConsts "ns1" "reg.io/org" "" "v1.0.0"
        PullAlways "2" "v" "a" "c" "" "l"
    rw [h0]
    exact hany (by decide)

/-! ## Controller: the launcher image -/

theorem launcher_ne_controller (base x y : String) :
    base ++ "virt-launcher" ++ x ≠ base ++ "virt-controller" ++ y := by
  intro h
  have h1 := congrArg String.data h
  simp only [String.data_append, List.append_assoc, List.append_cancel_left_eq] at h1
  simp at h1

/-- C5: for every input, the command of the controller container is
"virt-controller", "--launcher-image", then the string
repository ++ "/" ++ imagePrefix ++ "virt-launcher" ++ AddVersionSeparatorPrefix launcherVersion,
then the port and verbosity arguments; that string differs from the container's
own image (built from "virt-controller" and controllerVersion), and the command
is the same for every other controllerVersion. -/
theorem controller_launcher_image (k : Consts)
    (ns repository imagePrefix controllerVersion launcherVersion : String)
    (pullPolicy : PullPolicy) (verbosity : String) :
    ∃ d ct, NewControllerDeployment jsonMarshal k ns repository imagePrefix controllerVersion
        launcherVersion pullPolicy verbosity = .ok d ∧
      d.Spec.Template.Spec.Containers = [ct] ∧
      ct.Command = ["virt-controller", "--launcher-image",
        repository ++ "/" ++ imagePrefix ++ "virt-launcher"
          ++ AddVersionSeparatorPrefix launcherVersion,
        "--port", "8443", "-v", verbosity] ∧
      ct.Image = repository ++ "/" ++ imagePrefix ++ "virt-controller"
        ++ AddVersionSeparatorPrefix controllerVersion ∧
      repository ++ "/" ++ imagePrefix ++ "virt-launcher"
        ++ AddVersionSeparatorPrefix launcherVersion ≠ ct.Image ∧
      (∀ otherControllerVersion, ∃ d2 ct2,
        NewControllerDeployment jsonMarshal k ns repository imagePrefix otherControllerVersion
          launcherVersion pullPolicy verbosity = .ok d2 ∧
        d2.Spec.Template.Spec.Containers = [ct2] ∧ ct2.Command = ct.Command) := by
  refine ⟨_, _, rfl, rfl, rfl, ?_, ?_, fun _ => ⟨_, _, rfl, rfl, rfl⟩⟩
  · simp [String.append_assoc]
  · have h := launcher_ne_controller (repository ++ "/" ++ imagePrefix)
      (AddVersionSeparatorPrefix launcherVersion) (AddVersionSeparatorPrefix controllerVersion)
    simpa [String.append_assoc] using h

/-! ## Handler: volume bindings -/

theorem handlerDaemonSet_bindings (k : Consts)
    (ns repository imagePrefix version : String) (pullPolicy : PullPolicy) (verbosity : String) :
    ∃ d ct, NewHandlerDaemonSet jsonMarshal k ns repository imagePrefix version pullPolicy
        verbosity = .ok d ∧
      d.Spec.Template.Spec.Containers = [ct] ∧
      ct.VolumeMounts = (appendVolumes handlerVolumes [] []).1 ∧
      d.Spec.Template.Spec.Volumes = (appendVolumes handlerVolumes [] []).2 :=
  ⟨_, _, rfl, rfl, rfl, rfl⟩

/-- C6: for every input, `NewHandlerDaemonSet` returns a pod with 5 volumes and
a container with 5 mounts; mount and volume at the same position have the same
name; the names and paths are the five fixed ones, pairwise distinct; every
volume is a host-path volume whose path is the mount path of the mount of the
same name; the only mount with propagation Bidirectional is "virt-share-dir",
and the others have none. -/
theorem handler_volume_bindings (k : Consts)
    (ns repository imagePrefix version : String) (pullPolicy : PullPolicy) (verbosity : String) :
    ∃ d ct, NewHandlerDaemonSet jsonMarshal k ns repository imagePrefix version pullPolicy
        verbosity = .ok d ∧
      d.Spec.Template.Spec.Containers = [ct] ∧
      d.Spec.Template.Spec.Volumes.length = 5 ∧ ct.VolumeMounts.length = 5 ∧
      (∀ i, (ct.VolumeMounts.get? i).map (fun m => m.Name) =
        (d.Spec.Template.Spec.Volumes.get? i).map (fun v => v.Name)) ∧
      ct.VolumeMounts.map (fun m => m.Name) = d.Spec.Template.Spec.Volumes.map (fun v => v.Name) ∧
      ct.VolumeMounts.map (fun m => (m.Name, m.MountPath)) =
        [("libvirt-runtimes", "/var/run/kubevirt-libvirt-runtimes"),
         ("virt-share-dir", "/var/run/kubevirt"),
         ("virt-lib-dir", "/var/lib/kubevirt"),
         ("virt-private-dir", "/var/run/kubevirt-private"),
         ("device-plugin", "/var/lib/kubelet/device-plugins")] ∧
      (ct.VolumeMounts.map (fun m => m.Name)).Nodup ∧
      (∀ v ∈ d.Spec.Template.Spec.Volumes, ∃ hp, v.VolumeSource.HostPath = some hp ∧
        ∀ m ∈ ct.VolumeMounts, m.Name = v.Name → m.MountPath = hp.Path) ∧
      (ct.VolumeMounts.filter
          (fun m => m.MountPropagation = some MountPropagationBidirectional)).map
        (fun m => m.Name) = ["virt-share-dir"] ∧
      (∀ m ∈ ct.VolumeMounts, m.Name ≠ "virt-share-dir" → m.MountPropagation = none) := by
  obtain ⟨d, ct, hd, hct, hm, hv⟩ :=
    handlerDaemonSet_bindings k ns repository imagePrefix version pullPolicy verbosity
  refine ⟨d, ct, hd, hct, ?_⟩
  rw [hm, hv]
  refine ⟨rfl, rfl, ?_, rfl, rfl, by decide, by decide, by decide, by decide⟩
  intro i
  match i with
  | 0 | 1 | 2 | 3 | 4 => rfl
  | n + 5 => rfl

/-! ## Disruption budget -/

theorem deepCopy_eq (sel : Option LabelSelector) : LabelSelector.DeepCopy sel = sel := by
  cases sel with
  | none => rfl
  | some s =>
    cases s with
    | mk labels exprs =>
      simp only [LabelSelector.DeepCopy]
      have h1 : labels.map (fun e => (e.1, e.2)) = labels := by
        simp
      have h2 : exprs.map (fun r : LabelSelectorRequirement =>
          ({ Key := r.Key, Operator := r.Operator, Values := r.Values.map id } :
            LabelSelectorRequirement)) = exprs := by
        simp
      rw [h1, h2]

/-- C7: for every deployment d with a non-nil selector, the budget built from d
is named d.Name ++ "-pdb", lies in d's namespace, has MinAvailable the integer 1
and a selector equal to d's. Consequently, with `virtv1.AppLabel` equal to
"kubevirt.io", for the deployment returned by each Deployment builder
(`newBaseDeployment`, API server, controller, operator), the labels of the
budget's selector are a subset of the labels of the deployment's pod template. -/
theorem pdb_for_deployment (k : Consts) :
    (∀ (d : Deployment) (sel : LabelSelector), d.Spec.Selector = some sel →
      (NewPodDisruptionBudgetForDeployment k d).ObjectMeta.Name = d.ObjectMeta.Name ++ "-pdb" ∧
      (NewPodDisruptionBudgetForDeployment k d).ObjectMeta.Namespace = d.ObjectMeta.Namespace ∧
      (NewPodDisruptionBudgetForDeployment k d).Spec.MinAvailable
        = some { Type_ := IntstrType.Int, IntVal := 1, StrVal := "" } ∧
      (NewPodDisruptionBudgetForDeployment k d).Spec.Selector = some sel) ∧
    (k.AppLabel = "kubevirt.io" →
      ∀ (deploymentName imageName ns repository imagePrefix version launcherVersion : String)
        (pullPolicy : PullPolicy) (podAffinity : Option Affinity)
        (verbosity kv a c h l : String),
      (∃ d sel, newBaseDeployment jsonMarshal k deploymentName imageName ns repository version
          pullPolicy podAffinity = .ok d ∧
        (NewPodDisruptionBudgetForDeployment k d).Spec.Selector = some sel ∧
        LabelsSubset sel.MatchLabels d.Spec.Template.ObjectMeta.Labels) ∧
      (∃ d sel, NewApiServerDeployment jsonMarshal k ns repository imagePrefix version pullPolicy
          verbosity = .ok d ∧
        (NewPodDisruptionBudgetForDeployment k d).Spec.Selector = some sel ∧
        LabelsSubset sel.MatchLabels d.Spec.Template.ObjectMeta.Labels) ∧
      (∃ d sel, NewControllerDeployment jsonMarshal k ns repository imagePrefix version
          launcherVersion pullPolicy verbosity = .ok d ∧
        (NewPodDisruptionBudgetForDeployment k d).Spec.Selector = some sel ∧
        LabelsSubset sel.MatchLabels d.Spec.Template.ObjectMeta.Labels) ∧
      (∃ d sel, NewOperatorDeployment jsonMarshal k ns repository imagePrefix version pullPolicy
          verbosity kv a c h l = .ok d ∧
        (NewPodDisruptionBudgetForDeployment k d).Spec.Selector = some sel ∧
        LabelsSubset sel.MatchLabels d.Spec.Template.ObjectMeta.Labels)) := by
  have hpdb : ∀ d : Deployment, (NewPodDisruptionBudgetForDeployment k d).Spec.Selector
      = d.Spec.Selector := fun d => deepCopy_eq d.Spec.Selector
  constructor
  · intro d sel hsel
    exact ⟨rfl, rfl, rfl, by rw [hpdb, hsel]⟩
  · intro hApp deploymentName imageName ns repository imagePrefix version launcherVersion
      pullPolicy podAffinity verbosity kv a c h l
    refine ⟨⟨_, _, rfl, by rw [hpdb], labelsSubset_app _ k hApp⟩,
      ⟨_, _, rfl, by rw [hpdb], labelsSubset_app _ k hApp⟩,
      ⟨_, _, rfl, by rw [hpdb], labelsSubset_app _ k hApp⟩, ?_⟩
    have hsub := labelsSubset_app_own "virt-operator" k hApp
    by_cases hc : a ≠ "" ∧ c ≠ "" ∧ h ≠ "" ∧ l ≠ "" ∧ kv ≠ ""
    · simp only [NewOperatorDeployment, criticalAddonsToleration, jsonMarshal, if_pos hc]
      exact ⟨_, _, rfl, by rw [hpdb], hsub⟩
    · simp only [NewOperatorDeployment, criticalAddonsToleration, jsonMarshal, if_neg hc]
      exact ⟨_, _, rfl, by rw [hpdb], hsub⟩

/-- C7 (witness): the budget of the API server deployment built for namespace
"ns1" with the sample constants. -/
theorem pdb_for_deployment_witness :
    kubevirtConsts.AppLabel = "kubevirt.io" ∧
    ∃ d sel, NewApiServerDeployment jsonMarshal kubevirtConsts "ns1" "reg.io/org" "" "v1.0.0"
        PullAlways "2" = .ok d ∧
      (NewPodDisruptionBudgetForDeployment kubevirtConsts d).ObjectMeta.Name = "virt-api-pdb" ∧
      (NewPodDisruptionBudgetForDeployment kubevirtConsts d).Spec.Selector = some sel ∧
      LabelsSubset sel.MatchLabels d.Spec.Template.ObjectMeta.Labels := by
  refine ⟨rfl, ?_⟩
  obtain ⟨d, sel, hd, hsel, hsub⟩ :=
    ((pdb_for_deployment kubevirtConsts).2 rfl "" "" "ns1" "reg.io/org" "" "v1.0.0" ""
      PullAlways none "2" "" "" "" "" "").2.1
  have hname : d.ObjectMeta.Name = "virt-api" := by
    have h2 : NewApiServerDeployment jsonMarshal kubevirtConsts "ns1" "reg.io/org" "" "v1.0.0"
        PullAlways "2" = .ok _ := rfl
    rw [h2] at hd
    injection hd with hd
    rw [← hd]
  have hsel0 : d.Spec.Selector = some sel := by
    rw [← hsel]; exact (deepCopy_eq d.Spec.Selector).symm
  refine ⟨d, sel, hd, ?_, hsel, hsub⟩
  rw [((pdb_for_deployment kubevirtConsts).1 d sel hsel0).1, hname]
  rfl

/-! ## Failure of the builders -/

/-- C8: for every serialiser and every input, each of the four workload
builders returns an error exactly when `criticalAddonsToleration` returns an
error, and returns an object exactly when it returns the serialised list (so an
error comes with no object, and no builder panics); with `json.Marshal` as the
serialiser the fixed toleration list is serialised without error, and every
builder returns an object for every input. -/
theorem builders_fail_iff_toleration_fails (marshal : Marshal) (k : Consts)
    (ns repository imagePrefix version launcherVersion : String) (pullPolicy : PullPolicy)
    (verbosity kv a c h l : String) :
    (((∃ e, NewApiServerDeployment marshal k ns repository imagePrefix version pullPolicy
          verbosity = .error (Fault.error e)) ↔ (∃ e, criticalAddonsToleration marshal = .error e)) ∧
      ((∃ d, NewApiServerDeployment marshal k ns repository imagePrefix version pullPolicy
          verbosity = .ok d) ↔ (∃ t, criticalAddonsToleration marshal = .ok t))) ∧
    (((∃ e, NewControllerDeployment marshal k ns repository imagePrefix version launcherVersion
          pullPolicy verbosity = .error (Fault.error e)) ↔
        (∃ e, criticalAddonsToleration marshal = .error e)) ∧
      ((∃ d, NewControllerDeployment marshal k ns repository imagePrefix version launcherVersion
          pullPolicy verbosity = .ok d) ↔ (∃ t, criticalAddonsToleration marshal = .ok t))) ∧
    (((∃ e, NewHandlerDaemonSet marshal k ns repository imagePrefix version pullPolicy
          verbosity = .error (Fault.error e)) ↔ (∃ e, criticalAddonsToleration marshal = .error e)) ∧
      ((∃ d, NewHandlerDaemonSet marshal k ns repository imagePrefix version pullPolicy
          verbosity = .ok d) ↔ (∃ t, criticalAddonsToleration marshal = .ok t))) ∧
    (((∃ e, NewOperatorDeployment marshal k ns repository imagePrefix version pullPolicy
          verbosity kv a c h l = .error (Fault.error e)) ↔
        (∃ e, criticalAddonsToleration marshal = .error e)) ∧
      ((∃ d, NewOperatorDeployment marshal k ns repository imagePrefix version pullPolicy
          verbosity kv a c h l = .ok d) ↔ (∃ t, criticalAddonsToleration marshal = .ok t))) ∧
    (∃ t, criticalAddonsToleration jsonMarshal = .ok t) ∧
    (∃ d, NewApiServerDeployment jsonMarshal k ns repository imagePrefix version pullPolicy
        verbosity = .ok d) ∧
    (∃ d, NewControllerDeployment jsonMarshal k ns repository imagePrefix version launcherVersion
        pullPolicy verbosity = .ok d) ∧
    (∃ d, NewHandlerDaemonSet jsonMarshal k ns repository imagePrefix version pullPolicy
        verbosity = .ok d) ∧
    (∃ d, NewOperatorDeployment jsonMarshal k ns repository imagePrefix version pullPolicy
        verbosity kv a c h l = .ok d) := by
  have hop : ∃ d, NewOperatorDeployment jsonMarshal k ns repository imagePrefix version pullPolicy
        verbosity kv a c h l = .ok d := by
    by_cases hc : a ≠ "" ∧ c ≠ "" ∧ h ≠ "" ∧ l ≠ "" ∧ kv ≠ ""
    · simp only [NewOperatorDeployment, criticalAddonsToleration, jsonMarshal, if_pos hc]
      exact ⟨_, rfl⟩
    · simp only [NewOperatorDeployment, criticalAddonsToleration, jsonMarshal, if_neg hc]
      exact ⟨_, rfl⟩
  refine ⟨?_, ?_, ?_, ?_, ⟨_, rfl⟩, ⟨_, rfl⟩, ⟨_, rfl⟩, ⟨_, rfl⟩, hop⟩
  · cases hcrit : criticalAddonsToleration marshal with
    | error e => simp [NewApiServerDeployment, newBaseDeployment, newPodTemplateSpec, hcrit]
    | ok t =>
      simp [NewApiServerDeployment, newBaseDeployment, newPodTemplateSpec, hcrit,
        Consts.SubresourceGroupVersions]
  · cases hcrit : criticalAddonsToleration marshal with
    | error e => simp [NewControllerDeployment, newBaseDeployment, newPodTemplateSpec, hcrit]
    | ok t => simp [NewControllerDeployment, newBaseDeployment, newPodTemplateSpec, hcrit]
  · cases hcrit : criticalAddonsToleration marshal with
    | error e => simp [NewHandlerDaemonSet, newPodTemplateSpec, hcrit]
    | ok t => simp [NewHandlerDaemonSet, newPodTemplateSpec, hcrit]
  · cases hcrit : criticalAddonsToleration marshal with
    | error e => simp [NewOperatorDeployment, hcrit]
    | ok t =>
      by_cases hc : a ≠ "" ∧ c ≠ "" ∧ h ≠ "" ∧ l ≠ "" ∧ kv ≠ ""
      · simp [NewOperatorDeployment, hcrit, if_pos hc]
      · simp [NewOperatorDeployment, hcrit, if_neg hc]

/-! ## End-to-end scenario -/

/-- C9: `NewApiServerDeployment` for namespace "ns1", repository "reg.io/org",
empty image prefix, version "v1.0.0" and pull policy Always returns, for every
verbosity, a Deployment named "virt-api" in namespace "ns1" with 2 replicas and
one container with image "reg.io/org/virt-api:v1.0.0", pull policy Always,
declared container port 8443 and a readiness probe that is an HTTPS GET on port
8443 whose path contains "/healthz". -/
theorem apiServer_end_to_end (k : Consts) (verbosity : String) :
    ∃ d ct probe get,
      NewApiServerDeployment jsonMarshal k "ns1" "reg.io/org" "" "v1.0.0" PullAlways verbosity
        = .ok d ∧
      d.TypeMeta.Kind = "Deployment" ∧ d.ObjectMeta.Name = "virt-api" ∧
      d.ObjectMeta.Namespace = "ns1" ∧ d.Spec.Replicas = some 2 ∧
      d.Spec.Template.Spec.Containers = [ct] ∧
      ct.Image = "reg.io/org/virt-api:v1.0.0" ∧ ct.ImagePullPolicy = "Always" ∧
      ct.Ports = [ { Name := "virt-api", Protocol := "TCP", ContainerPort := 8443 },
                   { Name := "metrics", Protocol := "TCP", ContainerPort := 8443 } ] ∧
      (∃ p ∈ ct.Ports, p.ContainerPort = 8443) ∧
      ct.ReadinessProbe = some probe ∧ probe.Handler.HTTPGet = some get ∧
      get.Scheme = "HTTPS" ∧ get.Port = { Type_ := IntstrType.Int, IntVal := 8443 } ∧
      ContainsStr get.Path "/healthz" := by
  refine ⟨_, _, _, _, rfl, rfl, rfl, rfl, rfl, rfl, ?_, rfl, rfl, ?_, rfl, rfl, rfl, rfl, ?_⟩
  · show "reg.io/org" ++ "/" ++ ("" ++ "virt-api") ++ AddVersionSeparatorPrefix "v1.0.0"
      = "reg.io/org/virt-api:v1.0.0"
    decide
  · exact ⟨_, List.mem_cons_self _ _, rfl⟩
  · exact ⟨"/apis/subresources.kubevirt.io/" ++ k.SubresourceGroupVersionsHead.Version, "",
      by simp [Consts.SubresourceGroupVersions]⟩

/-! ## Services -/

/-- C10: for every namespace, `NewPrometheusService` and `NewApiServerService`
return a Service in that namespace with exactly one port mapping, of external
port 443 over TCP; the Prometheus service targets the named port "metrics" and
selects on "prometheus.kubevirt.io" with empty value, the API-server service
targets the numeric port 8443 and selects on the app label with value "virt-api". -/
theorem services_expose_443 (k : Consts) (ns : String) :
    (NewPrometheusService k ns).TypeMeta.Kind = "Service" ∧
    (NewPrometheusService k ns).ObjectMeta.Namespace = ns ∧
    (∃ p, (NewPrometheusService k ns).Spec.Ports = [p] ∧ p.Port = 443 ∧ p.Protocol = "TCP" ∧
      p.TargetPort = { Type_ := IntstrType.String, IntVal := 0, StrVal := "metrics" }) ∧
    (NewPrometheusService k ns).Spec.Selector = [("prometheus.kubevirt.io", "")] ∧
    (NewApiServerService k ns).TypeMeta.Kind = "Service" ∧
    (NewApiServerService k ns).ObjectMeta.Namespace = ns ∧
    (∃ p, (NewApiServerService k ns).Spec.Ports = [p] ∧ p.Port = 443 ∧ p.Protocol = "TCP" ∧
      p.TargetPort = { Type_ := IntstrType.Int, IntVal := 8443, StrVal := "" }) ∧
    (NewApiServerService k ns).Spec.Selector = [(k.AppLabel, "virt-api")] :=
  ⟨rfl, rfl, ⟨_, rfl, rfl, rfl, rfl⟩, rfl, rfl, rfl, ⟨_, rfl, rfl, rfl, rfl⟩, rfl⟩

/-! ## Critical-pod annotations and the metrics label -/

theorem get_prometheus_label (appLabel name : String) :
    GoMap.get (mapLit [(appLabel, name), ("prometheus.kubevirt.io", "")])
      "prometheus.kubevirt.io" = some "" := by
  by_cases h : appLabel = "prometheus.kubevirt.io"
  · simp [mapLit, GoMap.set, GoMap.get, h]
  · simp [mapLit, GoMap.set, GoMap.get, h]

theorem get_critical_annotations (tolerations : String) :
    GoMap.get (mapLit [("scheduler.alpha.kubernetes.io/critical-pod", ""),
        ("scheduler.alpha.kubernetes.io/tolerations", tolerations)])
      "scheduler.alpha.kubernetes.io/critical-pod" = some "" ∧
    GoMap.get (mapLit [("scheduler.alpha.kubernetes.io/critical-pod", ""),
        ("scheduler.alpha.kubernetes.io/tolerations", tolerations)])
      "scheduler.alpha.kubernetes.io/tolerations" = some tolerations := by
  constructor <;> simp [mapLit, GoMap.set, GoMap.get]

/-- C11: the fixed toleration list is serialised to the JSON text of the single
toleration with key "CriticalAddonsOnly" and operator "Exists"; for every input,
the pod template of each of the four workload builders carries the annotation
"scheduler.alpha.kubernetes.io/critical-pod" with empty value, the annotation
"scheduler.alpha.kubernetes.io/tolerations" with that text as value, and the
label "prometheus.kubevirt.io" with empty value. -/
theorem template_critical_annotations (k : Consts)
    (ns repository imagePrefix version launcherVersion : String) (pullPolicy : PullPolicy)
    (verbosity kv a c h l : String) :
    criticalAddonsToleration jsonMarshal
      = .ok "[\x7b\"key\":\"CriticalAddonsOnly\",\"operator\":\"Exists\"\x7d]" ∧
    (∃ d, NewApiServerDeployment jsonMarshal k ns repository imagePrefix version pullPolicy
        verbosity = .ok d ∧
      d.Spec.Template.ObjectMeta.Annotations.get "scheduler.alpha.kubernetes.io/critical-pod"
        = some "" ∧
      d.Spec.Template.ObjectMeta.Annotations.get "scheduler.alpha.kubernetes.io/tolerations"
        = some "[\x7b\"key\":\"CriticalAddonsOnly\",\"operator\":\"Exists\"\x7d]" ∧
      d.Spec.Template.ObjectMeta.Labels.get "prometheus.kubevirt.io" = some "") ∧
    (∃ d, NewControllerDeployment jsonMarshal k ns repository imagePrefix version launcherVersion
        pullPolicy verbosity = .ok d ∧
      d.Spec.Template.ObjectMeta.Annotations.get "scheduler.alpha.kubernetes.io/critical-pod"
        = some "" ∧
      d.Spec.Template.ObjectMeta.Annotations.get "scheduler.alpha.kubernetes.io/tolerations"
        = some "[\x7b\"key\":\"CriticalAddonsOnly\",\"operator\":\"Exists\"\x7d]" ∧
      d.Spec.Template.ObjectMeta.Labels.get "prometheus.kubevirt.io" = some "") ∧
    (∃ d, NewHandlerDaemonSet jsonMarshal k ns repository imagePrefix version pullPolicy
        verbosity = .ok d ∧
      d.Spec.Template.ObjectMeta.Annotations.get "scheduler.alpha.kubernetes.io/critical-pod"
        = some "" ∧
      d.Spec.Template.ObjectMeta.Annotations.get "scheduler.alpha.kubernetes.io/tolerations"
        = some "[\x7b\"key\":\"CriticalAddonsOnly\",\"operator\":\"Exists\"\x7d]" ∧
      d.Spec.Template.ObjectMeta.Labels.get "prometheus.kubevirt.io" = some "") ∧
    (∃ d, NewOperatorDeployment jsonMarshal k ns repository imagePrefix version pullPolicy
        verbosity kv a c h l = .ok d ∧
      d.Spec.Template.ObjectMeta.Annotations.get "scheduler.alpha.kubernetes.io/critical-pod"
        = some "" ∧
      d.Spec.Template.ObjectMeta.Annotations.get "scheduler.alpha.kubernetes.io/tolerations"
        = some "[\x7b\"key\":\"CriticalAddonsOnly\",\"operator\":\"Exists\"\x7d]" ∧
      d.Spec.Template.ObjectMeta.Labels.get "prometheus.kubevirt.io" = some "") := by
  have hann := get_critical_annotations
    "[\x7b\"key\":\"CriticalAddonsOnly\",\"operator\":\"Exists\"\x7d]"
  refine ⟨rfl, ⟨_, rfl, hann.1, hann.2, get_prometheus_label _ _⟩,
    ⟨_, rfl, hann.1, hann.2, get_prometheus_label _ _⟩,
    ⟨_, rfl, hann.1, hann.2, get_prometheus_label _ _⟩, ?_⟩
  by_cases hc : a ≠ "" ∧ c ≠ "" ∧ h ≠ "" ∧ l ≠ "" ∧ kv ≠ ""
  · simp only [NewOperatorDeployment, criticalAddonsToleration, jsonMarshal, if_pos hc]
    exact ⟨_, rfl, hann.1, hann.2, get_prometheus_label _ _⟩
  · simp only [NewOperatorDeployment, criticalAddonsToleration, jsonMarshal, if_neg hc]
    exact ⟨_, rfl, hann.1, hann.2, get_prometheus_label _ _⟩

/-! ## Probes -/

theorem slash_string_ne (a b flag : String) (hflag : (Char.ofNat 47) ∉ flag.data) :
    a ++ "/" ++ b ≠ flag := by
  intro h
  apply hflag
  rw [← h]
  simp [String.data_append]

theorem argAfter_port_controller (x verbosity : String) (hx : x ≠ "--port") :
    argAfter "--port" ["virt-controller", "--launcher-image", x, "--port", "8443", "-v", verbosity]
      = some "8443" := by
  simp [argAfter, hx]

/-- C12: every probe set by a workload builder is an HTTPS GET on the numeric
port 8443, a declared port of the container and the value that follows "--port"
in its command, on a fixed path: the API server has only a readiness probe (the
subresource health path of the first subresource version), the controller a
liveness probe on "/healthz" with FailureThreshold 8 and a readiness probe on
"/leader", the operator only a readiness probe on "/metrics", the handler no
probe; every readiness probe has FailureThreshold 0. -/
theorem probes_https_8443 (k : Consts)
    (ns repository imagePrefix version launcherVersion : String) (pullPolicy : PullPolicy)
    (verbosity kv a c h l : String) :
    (∃ d ct probe get, NewApiServerDeployment jsonMarshal k ns repository imagePrefix version
        pullPolicy verbosity = .ok d ∧ d.Spec.Template.Spec.Containers = [ct] ∧
      ct.LivenessProbe = none ∧ ct.ReadinessProbe = some probe ∧
      probe.Handler.HTTPGet = some get ∧ get.Scheme = "HTTPS" ∧
      get.Port = { Type_ := IntstrType.Int, IntVal := 8443 } ∧
      (∃ p ∈ ct.Ports, p.ContainerPort = get.Port.IntVal) ∧
      argAfter "--port" ct.Command = some (toString get.Port.IntVal) ∧
      get.Path = "/apis/subresources.kubevirt.io/" ++ k.SubresourceGroupVersionsHead.Version
        ++ "/healthz" ∧
      probe.FailureThreshold = 0) ∧
    (∃ d ct live liveGet ready readyGet, NewControllerDeployment jsonMarshal k ns repository
        imagePrefix version launcherVersion pullPolicy verbosity = .ok d ∧
      d.Spec.Template.Spec.Containers = [ct] ∧
      ct.LivenessProbe = some live ∧ live.Handler.HTTPGet = some liveGet ∧
      liveGet.Scheme = "HTTPS" ∧ liveGet.Port = { Type_ := IntstrType.Int, IntVal := 8443 } ∧
      liveGet.Path = "/healthz" ∧ live.FailureThreshold = 8 ∧
      ct.ReadinessProbe = some ready ∧ ready.Handler.HTTPGet = some readyGet ∧
      readyGet.Scheme = "HTTPS" ∧ readyGet.Port = { Type_ := IntstrType.Int, IntVal := 8443 } ∧
      readyGet.Path = "/leader" ∧ ready.FailureThreshold = 0 ∧
      (∃ p ∈ ct.Ports, p.ContainerPort = liveGet.Port.IntVal) ∧
      argAfter "--port" ct.Command = some (toString liveGet.Port.IntVal)) ∧
    (∃ d ct, NewHandlerDaemonSet jsonMarshal k ns repository imagePrefix version pullPolicy
        verbosity = .ok d ∧ d.Spec.Template.Spec.Containers = [ct] ∧
      ct.LivenessProbe = none ∧ ct.ReadinessProbe = none) ∧
    (∃ d ct probe get, NewOperatorDeployment jsonMarshal k ns repository imagePrefix version
        pullPolicy verbosity kv a c h l = .ok d ∧ d.Spec.Template.Spec.Containers = [ct] ∧
      ct.LivenessProbe = none ∧ ct.ReadinessProbe = some probe ∧
      probe.Handler.HTTPGet = some get ∧ get.Scheme = "HTTPS" ∧
      get.Port = { Type_ := IntstrType.Int, IntVal := 8443 } ∧
      (∃ p ∈ ct.Ports, p.ContainerPort = get.Port.IntVal) ∧
      argAfter "--port" ct.Command = some (toString get.Port.IntVal) ∧
      get.Path = "/metrics" ∧ probe.FailureThreshold = 0) := by
  have hx : repository ++ "/" ++ imagePrefix ++ "virt-launcher"
      ++ AddVersionSeparatorPrefix launcherVersion ≠ "--port" := by
    have h0 := slash_string_ne repository
      (imagePrefix ++ "virt-launcher" ++ AddVersionSeparatorPrefix launcherVersion) "--port"
      (by decide)
    simpa [String.append_assoc] using h0
  refine ⟨⟨_, _, _, _, rfl, rfl, rfl, rfl, rfl, rfl, rfl, ⟨_, List.mem_cons_self _ _, rfl⟩,
      rfl, ?_, rfl⟩,
    ⟨_, _, _, _, _, _, rfl, rfl, rfl, rfl, rfl, rfl, rfl, rfl, rfl, rfl, rfl, rfl, rfl, rfl,
      ⟨_, List.mem_cons_self _ _, rfl⟩, argAfter_port_controller _ _ hx⟩,
    ⟨_, _, rfl, rfl, rfl, rfl⟩, ?_⟩
  · simp [Consts.SubresourceGroupVersions]
  · by_cases hc : a ≠ "" ∧ c ≠ "" ∧ h ≠ "" ∧ l ≠ "" ∧ kv ≠ ""
    · simp only [NewOperatorDeployment, criticalAddonsToleration, jsonMarshal, if_pos hc]
      exact ⟨_, _, _, _, rfl, rfl, rfl, rfl, rfl, rfl, rfl, ⟨_, List.mem_cons_self _ _, rfl⟩,
        rfl, rfl, rfl⟩
    · simp only [NewOperatorDeployment, criticalAddonsToleration, jsonMarshal, if_neg hc]
      exact ⟨_, _, _, _, rfl, rfl, rfl, rfl, rfl, rfl, rfl, ⟨_, List.mem_cons_self _ _, rfl⟩,
        rfl, rfl, rfl⟩

/-! ## Container ports and the console server port -/

/-- C13 (counterexample): at the inputs of the end-to-end scenario, two of the
four components, the API server and the handler, pass 8186 after
"--console-server-port": the port is not used by exactly one component. -/
theorem console_port_used_by_two_components :
    ∃ api controller handler operator ca cc ch co,
      NewApiServerDeployment jsonMarshal kubevirtConsts "ns1" "reg.io/org" "" "v1.0.0"
        PullAlways "2" = .ok api ∧ api.Spec.Template.Spec.Containers = [ca] ∧
      NewControllerDeployment jsonMarshal kubevirtConsts "ns1" "reg.io/org" "" "v1.0.0" "v1.0.0"
        PullAlways "2" = .ok controller ∧ controller.Spec.Template.Spec.Containers = [cc] ∧
      NewHandlerDaemonSet jsonMarshal kubevirtConsts "ns1" "reg.io/org" "" "v1.0.0"
        PullAlways "2" = .ok handler ∧ handler.Spec.Template.Spec.Containers = [ch] ∧
      NewOperatorDeployment jsonMarshal kubevirtConsts "ns1" "reg.io/org" "" "v1.0.0"
        PullAlways "2" "" "" "" "" "" = .ok operator ∧
      operator.Spec.Template.Spec.Containers = [co] ∧
      argAfter "--console-server-port" ca.Command = some "8186" ∧
      argAfter "--console-server-port" ch.Command = some "8186" ∧
      ca.Name ≠ ch.Name ∧
      ([ca, cc, ch, co].filter
        (fun ct => argAfter "--console-server-port" ct.Command = some "8186")).length = 2 := by
  refine ⟨_, _, _, _, _, _, _, _, rfl, rfl, rfl, rfl, rfl, rfl, rfl, rfl, rfl, rfl, ?_, ?_⟩
  · decide
  · decide

/-- C13 (amended): for every input, the declared container ports are
"virt-api" and "metrics", both 8443, on the API server, "metrics" 8443 on the
controller and on the handler, and "metrics" 8443 and "webhooks" 8444 on the
operator; the API server and the handler pass 8186 after
"--console-server-port", the controller and the operator have no such argument. -/
theorem container_ports_and_console_port (k : Consts)
    (ns repository imagePrefix version launcherVersion : String) (pullPolicy : PullPolicy)
    (verbosity kv a c h l : String) :
    (∃ d ct, NewApiServerDeployment jsonMarshal k ns repository imagePrefix version
        pullPolicy verbosity = .ok d ∧ d.Spec.Template.Spec.Containers = [ct] ∧
      ct.Ports = [ { Name := "virt-api", Protocol := "TCP", ContainerPort := 8443 },
                   { Name := "metrics", Protocol := "TCP", ContainerPort := 8443 } ] ∧
      argAfter "--console-server-port" ct.Command = some "8186") ∧
    (∃ d ct, NewControllerDeployment jsonMarshal k ns repository imagePrefix version
        launcherVersion pullPolicy verbosity = .ok d ∧ d.Spec.Template.Spec.Containers = [ct] ∧
      ct.Ports = [ { Name := "metrics", Protocol := "TCP", ContainerPort := 8443 } ] ∧
      argAfter "--console-server-port" ct.Command = none) ∧
    (∃ d ct, NewHandlerDaemonSet jsonMarshal k ns repository imagePrefix version
        pullPolicy verbosity = .ok d ∧ d.Spec.Template.Spec.Containers = [ct] ∧
      ct.Ports = [ { Name := "metrics", Protocol := "TCP", ContainerPort := 8443 } ] ∧
      argAfter "--console-server-port" ct.Command = some "8186") ∧
    (∃ d ct, NewOperatorDeployment jsonMarshal k ns repository imagePrefix version
        pullPolicy verbosity kv a c h l = .ok d ∧ d.Spec.Template.Spec.Containers = [ct] ∧
      ct.Ports = [ { Name := "metrics", Protocol := "TCP", ContainerPort := 8443 },
                   { Name := "webhooks", Protocol := "TCP", ContainerPort := 8444 } ] ∧
      argAfter "--console-server-port" ct.Command = none) := by
  have hx : repository ++ "/" ++ imagePrefix ++ "virt-launcher"
      ++ AddVersionSeparatorPrefix launcherVersion ≠ "--console-server-port" := by
    have h0 := slash_string_ne repository
      (imagePrefix ++ "virt-launcher" ++ AddVersionSeparatorPrefix launcherVersion)
      "--console-server-port" (by decide)
    simpa [String.append_assoc] using h0
  refine ⟨⟨_, _, rfl, rfl, rfl, rfl⟩, ⟨_, _, rfl, rfl, rfl, ?_⟩, ⟨_, _, rfl, rfl, rfl, rfl⟩, ?_⟩
  · simp [argAfter, hx]
  · by_cases hc : a ≠ "" ∧ c ≠ "" ∧ h ≠ "" ∧ l ≠ "" ∧ kv ≠ ""
    · simp only [NewOperatorDeployment, criticalAddonsToleration, jsonMarshal, if_pos hc]
      exact ⟨_, _, rfl, rfl, rfl, rfl⟩
    · simp only [NewOperatorDeployment, criticalAddonsToleration, jsonMarshal, if_neg hc]
      exact ⟨_, _, rfl, rfl, rfl, rfl⟩

/-! ## Security contexts -/

/-- C14: for every input, the handler DaemonSet has HostPID set and its single
container has a security context with Privileged true; each of the three
Deployment builders sets a pod security context with RunAsNonRoot true, leaves
HostPID false and gives its container no security context. -/
theorem security_contexts (k : Consts)
    (ns repository imagePrefix version launcherVersion : String) (pullPolicy : PullPolicy)
    (verbosity kv a c h l : String) :
    (∃ d ct, NewHandlerDaemonSet jsonMarshal k ns repository imagePrefix version
        pullPolicy verbosity = .ok d ∧ d.TypeMeta.Kind = "DaemonSet" ∧
      d.Spec.Template.Spec.Containers = [ct] ∧
      d.Spec.Template.Spec.HostPID = true ∧
      ct.SecurityContext = some { Privileged := some true }) ∧
    (∃ d ct, NewApiServerDeployment jsonMarshal k ns repository imagePrefix version
        pullPolicy verbosity = .ok d ∧ d.Spec.Template.Spec.Containers = [ct] ∧
      d.Spec.Template.Spec.SecurityContext = some { RunAsNonRoot := some true } ∧
      d.Spec.Template.Spec.HostPID = false ∧ ct.SecurityContext = none) ∧
    (∃ d ct, NewControllerDeployment jsonMarshal k ns repository imagePrefix version
        launcherVersion pullPolicy verbosity = .ok d ∧ d.Spec.Template.Spec.Containers = [ct] ∧
      d.Spec.Template.Spec.SecurityContext = some { RunAsNonRoot := some true } ∧
      d.Spec.Template.Spec.HostPID = false ∧ ct.SecurityContext = none) ∧
    (∃ d ct, NewOperatorDeployment jsonMarshal k ns repository imagePrefix version
        pullPolicy verbosity kv a c h l = .ok d ∧ d.Spec.Template.Spec.Containers = [ct] ∧
      d.Spec.Template.Spec.SecurityContext = some { RunAsNonRoot := some true } ∧
      d.Spec.Template.Spec.HostPID = false ∧ ct.SecurityContext = none) := by
  refine ⟨⟨_, _, rfl, rfl, rfl, rfl, rfl⟩, ⟨_, _, rfl, rfl, rfl, rfl, rfl⟩,
    ⟨_, _, rfl, rfl, rfl, rfl, rfl⟩, ?_⟩
  by_cases hc : a ≠ "" ∧ c ≠ "" ∧ h ≠ "" ∧ l ≠ "" ∧ kv ≠ ""
  · simp only [NewOperatorDeployment, criticalAddonsToleration, jsonMarshal, if_pos hc]
    exact ⟨_, _, rfl, rfl, rfl, rfl, rfl⟩
  · simp only [NewOperatorDeployment, criticalAddonsToleration, jsonMarshal, if_neg hc]
    exact ⟨_, _, rfl, rfl, rfl, rfl, rfl⟩

/-! ## Handler: environment and command references -/

theorem commandReferences_append (xs ys : List String) :
    commandReferences (xs ++ ys) = commandReferences xs ++ commandReferences ys := by
  simp [commandReferences]

theorem handlerDaemonSet_command (k : Consts)
    (ns repository imagePrefix version : String) (pullPolicy : PullPolicy) (verbosity : String) :
    ∃ d ct, NewHandlerDaemonSet jsonMarshal k ns repository imagePrefix version pullPolicy
        verbosity = .ok d ∧
      d.Spec.Template.Spec.Containers = [ct] ∧
      ct.Env = [
        { Name := "NODE_NAME", Value := ""
          ValueFrom := some { FieldRef := some { FieldPath := "spec.nodeName" } } },
        { Name := "MY_POD_IP", Value := ""
          ValueFrom := some { FieldRef := some { FieldPath := "status.podIP" } } } ] ∧
      ct.Command = ["virt-handler", "--port", "8443", "--hostname-override", "$(NODE_NAME)",
          "--pod-ip-address", "$(MY_POD_IP)", "--max-metric-requests", "3",
          "--console-server-port", "8186", "-v"] ++ [verbosity] :=
  ⟨_, _, rfl, rfl, rfl, rfl⟩

/-- C15 (counterexample): with verbosity "$(FOO)" the handler's command
contains a reference to FOO, which is not a variable of the container's
environment. -/
theorem handler_reference_outside_environment :
    ∃ d ct, NewHandlerDaemonSet jsonMarshal kubevirtConsts "ns1" "reg.io/org" "" "v1.0.0"
        PullAlways "$(FOO)" = .ok d ∧
      d.Spec.Template.Spec.Containers = [ct] ∧
      "FOO" ∈ commandReferences ct.Command ∧
      "FOO" ∉ ct.Env.map (fun e => e.Name) := by
  refine ⟨_, _, rfl, rfl, ?_, ?_⟩
  · decide
  · decide

/-- C15 (amended): for every input, the handler container's environment is
exactly NODE_NAME and MY_POD_IP, in that order, each with an empty literal value
and the field reference "spec.nodeName", respectively "status.podIP"; the
command passes "$(NODE_NAME)" after "--hostname-override" and "$(MY_POD_IP)"
after "--pod-ip-address"; the references of the arguments before the final,
caller-supplied verbosity are NODE_NAME and MY_POD_IP, both variables of the
environment, and the references of the whole command are these two followed by
the references of the verbosity string; hence, when the verbosity string holds
no reference, every reference of the command names a variable of the
environment. -/
theorem handler_environment_and_references (k : Consts)
    (ns repository imagePrefix version : String) (pullPolicy : PullPolicy) (verbosity : String) :
    ∃ d ct, NewHandlerDaemonSet jsonMarshal k ns repository imagePrefix version pullPolicy
        verbosity = .ok d ∧
      d.Spec.Template.Spec.Containers = [ct] ∧
      ct.Env = [
        { Name := "NODE_NAME", Value := ""
          ValueFrom := some { FieldRef := some { FieldPath := "spec.nodeName" } } },
        { Name := "MY_POD_IP", Value := ""
          ValueFrom := some { FieldRef := some { FieldPath := "status.podIP" } } } ] ∧
      argAfter "--hostname-override" ct.Command = some "$(NODE_NAME)" ∧
      argAfter "--pod-ip-address" ct.Command = some "$(MY_POD_IP)" ∧
      ct.Command.getLast? = some verbosity ∧
      commandReferences ct.Command.dropLast = ["NODE_NAME", "MY_POD_IP"] ∧
      (∀ name ∈ commandReferences ct.Command.dropLast, name ∈ ct.Env.map (fun e => e.Name)) ∧
      commandReferences ct.Command = ["NODE_NAME", "MY_POD_IP"] ++ references verbosity ∧
      (references verbosity = [] →
        ∀ name ∈ commandReferences ct.Command, name ∈ ct.Env.map (fun e => e.Name)) := by
  obtain ⟨d, ct, hd, hct, henv, hcmd⟩ :=
    handlerDaemonSet_command k ns repository imagePrefix version pullPolicy verbosity
  have hfixed : commandReferences ["virt-handler", "--port", "8443", "--hostname-override",
      "$(NODE_NAME)", "--pod-ip-address", "$(MY_POD_IP)", "--max-metric-requests", "3",
      "--console-server-port", "8186", "-v"] = ["NODE_NAME", "MY_POD_IP"] := by decide
  have hall : commandReferences ct.Command = ["NODE_NAME", "MY_POD_IP"] ++ references verbosity := by
    rw [hcmd, commandReferences_append, hfixed]
    simp [commandReferences]
  have hdrop : ct.Command.dropLast = ["virt-handler", "--port", "8443", "--hostname-override",
      "$(NODE_NAME)", "--pod-ip-address", "$(MY_POD_IP)", "--max-metric-requests", "3",
      "--console-server-port", "8186", "-v"] := by
    rw [hcmd]; simp
  refine ⟨d, ct, hd, hct, henv, ?_, ?_, ?_, ?_, ?_, hall, ?_⟩
  · rw [hcmd]; rfl
  · rw [hcmd]; rfl
  · rw [hcmd]; simp
  · rw [hdrop, hfixed]
  · rw [hdrop, hfixed, henv]; decide
  · intro hnone
    rw [hall, hnone, henv]; decide

/-- C15 (witness): with verbosity "2", which holds no reference, every
reference of the handler's command names a variable of its environment. -/
theorem handler_environment_and_references_witness :
    references "2" = [] ∧
    ∃ d ct, NewHandlerDaemonSet jsonMarshal kubevirtConsts "ns1" "reg.io/org" "" "v1.0.0"
        PullAlways "2" = .ok d ∧
      d.Spec.Template.Spec.Containers = [ct] ∧
      ∀ name ∈ commandReferences ct.Command, name ∈ ct.Env.map (fun e => e.Name) := by
  refine ⟨by decide, ?_⟩
  obtain ⟨d, ct, hd, hct, _, _, _, _, _, _, _, himp⟩ :=
    handler_environment_and_references kubevirtConsts "ns1" "reg.io/org" "" "v1.0.0"
      PullAlways "2"
  exact ⟨d, ct, hd, hct, himp (by decide)⟩

/-! ## Anti-affinity -/

theorem matches_own_label (k : Consts) (hApp : k.AppLabel = "kubevirt.io") (name : String) :
    LabelSelectorRequirement.Matches
      { Key := "kubevirt.io", Operator := LabelSelectorOpIn, Values := [name] }
      (mapLit [(k.AppLabel, name), ("prometheus.kubevirt.io", "")]) = true := by
  rw [hApp]
  simp [LabelSelectorRequirement.Matches, LabelSelectorOpIn, mapLit, GoMap.set, GoMap.get]

/-- C16: `newPodAntiAffinity key topologyKey operator values` is, for every
input, an affinity without required anti-affinity terms and with exactly one
preferred term, of weight 1 and topology key `topologyKey`, whose label selector
is the single requirement (key, operator, values). Each Deployment builder puts
in its pod template the affinity built with key "kubevirt.io", topology key
"kubernetes.io/hostname", operator In and its own component name as only value,
and, with `virtv1.AppLabel` equal to "kubevirt.io", that requirement is
satisfied by the labels of the same pod template; the handler DaemonSet has no
affinity. -/
theorem anti_affinity (k : Consts) (key topologyKey operator : String) (values : List String)
    (ns repository imagePrefix version launcherVersion : String) (pullPolicy : PullPolicy)
    (verbosity kv a c h l : String) :
    newPodAntiAffinity key topologyKey operator values = some {
      PodAntiAffinity := some {
        RequiredDuringSchedulingIgnoredDuringExecution := []
        PreferredDuringSchedulingIgnoredDuringExecution := [
          { Weight := 1
            PodAffinityTerm := {
              TopologyKey := topologyKey
              LabelSelector := some {
                MatchLabels := []
                MatchExpressions := [ { Key := key, Operator := operator, Values := values } ]
              } } } ] } } ∧
    (∃ d, NewApiServerDeployment jsonMarshal k ns repository imagePrefix version
        pullPolicy verbosity = .ok d ∧
      d.Spec.Template.Spec.Affinity
        = newPodAntiAffinity "kubevirt.io" "kubernetes.io/hostname" "In" ["virt-api"] ∧
      (k.AppLabel = "kubevirt.io" →
        LabelSelectorRequirement.Matches
          { Key := "kubevirt.io", Operator := "In", Values := ["virt-api"] }
          d.Spec.Template.ObjectMeta.Labels = true)) ∧
    (∃ d, NewControllerDeployment jsonMarshal k ns repository imagePrefix version
        launcherVersion pullPolicy verbosity = .ok d ∧
      d.Spec.Template.Spec.Affinity
        = newPodAntiAffinity "kubevirt.io" "kubernetes.io/hostname" "In" ["virt-controller"] ∧
      (k.AppLabel = "kubevirt.io" →
        LabelSelectorRequirement.Matches
          { Key := "kubevirt.io", Operator := "In", Values := ["virt-controller"] }
          d.Spec.Template.ObjectMeta.Labels = true)) ∧
    (∃ d, NewOperatorDeployment jsonMarshal k ns repository imagePrefix version
        pullPolicy verbosity kv a c h l = .ok d ∧
      d.Spec.Template.Spec.Affinity
        = newPodAntiAffinity "kubevirt.io" "kubernetes.io/hostname" "In" ["virt-operator"] ∧
      (k.AppLabel = "kubevirt.io" →
        LabelSelectorRequirement.Matches
          { Key := "kubevirt.io", Operator := "In", Values := ["virt-operator"] }
          d.Spec.Template.ObjectMeta.Labels = true)) ∧
    (∃ d, NewHandlerDaemonSet jsonMarshal k ns repository imagePrefix version
        pullPolicy verbosity = .ok d ∧ d.Spec.Template.Spec.Affinity = none) := by
  refine ⟨rfl, ⟨_, rfl, rfl, fun hApp => matches_own_label k hApp _⟩,
    ⟨_, rfl, rfl, fun hApp => matches_own_label k hApp _⟩, ?_, ⟨_, rfl, rfl⟩⟩
  by_cases hc : a ≠ "" ∧ c ≠ "" ∧ h ≠ "" ∧ l ≠ "" ∧ kv ≠ ""
  · simp only [NewOperatorDeployment, criticalAddonsToleration, jsonMarshal, if_pos hc]
    exact ⟨_, rfl, rfl, fun hApp => matches_own_label k hApp _⟩
  · simp only [NewOperatorDeployment, criticalAddonsToleration, jsonMarshal, if_neg hc]
    exact ⟨_, rfl, rfl, fun hApp => matches_own_label k hApp _⟩

/-- C16 (witness): at the sample constants, whose app label is "kubevirt.io",
the requirement of the API server's anti-affinity term is satisfied by the
labels of the API server's pod template. -/
theorem anti_affinity_witness :
    kubevirtConsts.AppLabel = "kubevirt.io" ∧
    ∃ d, NewApiServerDeployment jsonMarshal kubevirtConsts "ns1" "reg.io/org" "" "v1.0.0"
        PullAlways "2" = .ok d ∧
      LabelSelectorRequirement.Matches
        { Key := "kubevirt.io", Operator := "In", Values := ["virt-api"] }
        d.Spec.Template.ObjectMeta.Labels = true := by
  refine ⟨rfl, ?_⟩
  obtain ⟨d, hd, _, hm⟩ :=
    (anti_affinity kubevirtConsts "" "" "" [] "ns1" "reg.io/org" "" "v1.0.0" ""
      PullAlways "2" "" "" "" "" "").2.1
  exact ⟨d, hd, hm rfl⟩

/-! ## Services and workloads -/

theorem labelsSubset_prometheus (appLabel name : String) :
    LabelsSubset (mapLit [("prometheus.kubevirt.io", "")])
      (mapLit [(appLabel, name), ("prometheus.kubevirt.io", "")]) := by
  intro key v hget
  have hkey : "prometheus.kubevirt.io" = key ∧ "" = v := by
    simpa [mapLit, GoMap.set, GoMap.get] using hget
  rw [← hkey.1, ← hkey.2]
  exact get_prometheus_label appLabel name

/-- C18: for every namespace and every builder input, the selector of
`NewPrometheusService` is a subset of the pod template labels of each of the
four workloads, and the service's named target port, "metrics", is the name of
a declared port of the workload's container, with container port 8443; with
`virtv1.AppLabel` equal to "kubevirt.io" the selector of `NewApiServerService`
is a subset of the pod template labels of `NewApiServerDeployment`, and the
service's numeric target port 8443 is a declared container port of the
virt-api container. -/
theorem service_workload_consistency (k : Consts)
    (svcNs ns repository imagePrefix version launcherVersion : String) (pullPolicy : PullPolicy)
    (verbosity kv a c h l : String) :
    (∃ target, ((NewPrometheusService k svcNs).Spec.Ports.map (fun p => p.TargetPort)) = [target] ∧
      target.Type_ = IntstrType.String ∧ target.StrVal = "metrics" ∧
      (∃ d ct, NewApiServerDeployment jsonMarshal k ns repository imagePrefix version
          pullPolicy verbosity = .ok d ∧ d.Spec.Template.Spec.Containers = [ct] ∧
        LabelsSubset (NewPrometheusService k svcNs).Spec.Selector
          d.Spec.Template.ObjectMeta.Labels ∧
        (∃ p ∈ ct.Ports, p.Name = target.StrVal ∧ p.ContainerPort = 8443)) ∧
      (∃ d ct, NewControllerDeployment jsonMarshal k ns repository imagePrefix version
          launcherVersion pullPolicy verbosity = .ok d ∧
        d.Spec.Template.Spec.Containers = [ct] ∧
        LabelsSubset (NewPrometheusService k svcNs).Spec.Selector
          d.Spec.Template.ObjectMeta.Labels ∧
        (∃ p ∈ ct.Ports, p.Name = target.StrVal ∧ p.ContainerPort = 8443)) ∧
      (∃ d ct, NewHandlerDaemonSet jsonMarshal k ns repository imagePrefix version
          pullPolicy verbosity = .ok d ∧ d.Spec.Template.Spec.Containers = [ct] ∧
        LabelsSubset (NewPrometheusService k svcNs).Spec.Selector
          d.Spec.Template.ObjectMeta.Labels ∧
        (∃ p ∈ ct.Ports, p.Name = target.StrVal ∧ p.ContainerPort = 8443)) ∧
      (∃ d ct, NewOperatorDeployment jsonMarshal k ns repository imagePrefix version
          pullPolicy verbosity kv a c h l = .ok d ∧ d.Spec.Template.Spec.Containers = [ct] ∧
        LabelsSubset (NewPrometheusService k svcNs).Spec.Selector
          d.Spec.Template.ObjectMeta.Labels ∧
        (∃ p ∈ ct.Ports, p.Name = target.StrVal ∧ p.ContainerPort = 8443))) ∧
    (∃ target, ((NewApiServerService k svcNs).Spec.Ports.map (fun p => p.TargetPort)) = [target] ∧
      target.Type_ = IntstrType.Int ∧ target.IntVal = 8443 ∧
      ∃ d ct, NewApiServerDeployment jsonMarshal k ns repository imagePrefix version
          pullPolicy verbosity = .ok d ∧ d.Spec.Template.Spec.Containers = [ct] ∧
        (k.AppLabel = "kubevirt.io" →
          LabelsSubset (NewApiServerService k svcNs).Spec.Selector
            d.Spec.Template.ObjectMeta.Labels) ∧
        (∃ p ∈ ct.Ports, p.ContainerPort = target.IntVal)) := by
  have hprom := fun name => labelsSubset_prometheus k.AppLabel name
  refine ⟨⟨_, rfl, rfl, rfl,
      ⟨_, _, rfl, rfl, hprom _, ⟨_, List.mem_cons_of_mem _ (List.mem_cons_self _ _), rfl, rfl⟩⟩,
      ⟨_, _, rfl, rfl, hprom _, ⟨_, List.mem_cons_self _ _, rfl, rfl⟩⟩,
      ⟨_, _, rfl, rfl, hprom _, ⟨_, List.mem_cons_self _ _, rfl, rfl⟩⟩, ?_⟩,
    ⟨_, rfl, rfl, rfl, _, _, rfl, rfl, fun hApp => labelsSubset_app_own _ k hApp,
      ⟨_, List.mem_cons_self _ _, rfl⟩⟩⟩
  by_cases hc : a ≠ "" ∧ c ≠ "" ∧ h ≠ "" ∧ l ≠ "" ∧ kv ≠ ""
  · simp only [NewOperatorDeployment, criticalAddonsToleration, jsonMarshal, if_pos hc]
    exact ⟨_, _, rfl, rfl, hprom _, ⟨_, List.mem_cons_self _ _, rfl, rfl⟩⟩
  · simp only [NewOperatorDeployment, criticalAddonsToleration, jsonMarshal, if_neg hc]
    exact ⟨_, _, rfl, rfl, hprom _, ⟨_, List.mem_cons_self _ _, rfl, rfl⟩⟩

/-- C18 (witness): at the sample constants, whose app label is "kubevirt.io",
the selector of the API-server service is a subset of the pod template labels
of the API server deployment. -/
theorem service_workload_consistency_witness :
    kubevirtConsts.AppLabel = "kubevirt.io" ∧
    ∃ d, NewApiServerDeployment jsonMarshal kubevirtConsts "ns1" "reg.io/org" "" "v1.0.0"
        PullAlways "2" = .ok d ∧
      LabelsSubset (NewApiServerService kubevirtConsts "ns1").Spec.Selector
        d.Spec.Template.ObjectMeta.Labels := by
  refine ⟨rfl, ?_⟩
  obtain ⟨_, _, _, _, d, _, hd, _, hsub, _⟩ :=
    (service_workload_consistency kubevirtConsts "ns1" "ns1" "reg.io/org" "" "v1.0.0" ""
      PullAlways "2" "" "" "" "" "").2
  exact ⟨d, hd, hsub rfl⟩

/-! ## Operator: the image variable -/

/-- C20: for every input of `NewOperatorDeployment`, pinning strings included,
the first environment variable of the operator container is named
`operatorutil.OperatorImageEnvName` and its value is the container's Image,
repository ++ "/" ++ imagePrefix ++ "virt-operator" ++ AddVersionSeparatorPrefix version. -/
theorem operator_image_env (k : Consts)
    (ns repository imagePrefix version : String) (pullPolicy : PullPolicy)
    (verbosity kv a c h l : String) :
    ∃ d ct e, NewOperatorDeployment jsonMarshal k ns repository imagePrefix version
        pullPolicy verbosity kv a c h l = .ok d ∧ d.Spec.Template.Spec.Containers = [ct] ∧
      ct.Env.head? = some e ∧ e.Name = k.OperatorImageEnvName ∧ e.Value = ct.Image ∧
      ct.Image = repository ++ "/" ++ imagePrefix ++ "virt-operator"
        ++ AddVersionSeparatorPrefix version := by
  by_cases hc : a ≠ "" ∧ c ≠ "" ∧ h ≠ "" ∧ l ≠ "" ∧ kv ≠ ""
  · simp only [NewOperatorDeployment, criticalAddonsToleration, jsonMarshal, if_pos hc]
    exact ⟨_, _, _, rfl, rfl, rfl, rfl, rfl, rfl⟩
  · simp only [NewOperatorDeployment, criticalAddonsToleration, jsonMarshal, if_neg hc]
    exact ⟨_, _, _, rfl, rfl, rfl, rfl, rfl, rfl⟩

/-! ## Version formatter: a second application -/

theorem hasPrefix_cons_ne (c : Char) (w p : String) (hp : p.data.head? ≠ some c)
    (hne : p.data ≠ []) : HasPrefix (String.singleton c ++ w) p = false := by
  unfold HasPrefix
  rw [String.data_append]
  cases hpd : p.data with
  | nil => exact absurd hpd hne
  | cons x xs =>
    rw [hpd] at hp
    have hx : x ≠ c := fun hxc => hp (by simp [hxc])
    simp [String.singleton, List.isPrefixOf, hx]

theorem addVersionSeparatorPrefix_of_at (w : String) :
    AddVersionSeparatorPrefix ("@" ++ w) = ":" ++ ("@" ++ w) := by
  have h1 : HasPrefix ("@" ++ w) "sha256:" = false :=
    hasPrefix_cons_ne '@' w "sha256:" (by decide) (by decide)
  have h2 : HasPrefix ("@" ++ w) "\x7b\x7bif" = false :=
    hasPrefix_cons_ne '@' w "\x7b\x7bif" (by decide) (by decide)
  simp [AddVersionSeparatorPrefix, h1, h2]

theorem addVersionSeparatorPrefix_of_colon (w : String) :
    AddVersionSeparatorPrefix (":" ++ w) = ":" ++ (":" ++ w) := by
  have h1 : HasPrefix (":" ++ w) "sha256:" = false :=
    hasPrefix_cons_ne ':' w "sha256:" (by decide) (by decide)
  have h2 : HasPrefix (":" ++ w) "\x7b\x7bif" = false :=
    hasPrefix_cons_ne ':' w "\x7b\x7bif" (by decide) (by decide)
  simp [AddVersionSeparatorPrefix, h1, h2]

theorem colon_append_ne (w : String) : ":" ++ w ≠ w := by
  intro h
  have h1 := congrArg String.length h
  simp [String.length_append] at h1
  exact absurd h1 (by decide)

theorem template_not_sha (v : String) (h : HasPrefix v "\x7b\x7bif" = true) :
    HasPrefix v "sha256:" = false := by
  unfold HasPrefix at h ⊢
  cases hv : v.data with
  | nil => rw [hv] at h; simp [List.isPrefixOf] at h
  | cons x xs =>
    rw [hv] at h
    have hx : x = Char.ofNat 123 := by
      simp [List.isPrefixOf] at h
      exact h.1.symm
    subst hx
    rfl

/-- C19: a second application of `AddVersionSeparatorPrefix` returns the result
of the first exactly when v begins with the template marker; for every other v
it prepends a further ":"; v is always the end of the result, which is at most
one character longer than v. -/
theorem addVersionSeparatorPrefix_idempotent_iff (v : String) :
    (AddVersionSeparatorPrefix (AddVersionSeparatorPrefix v) = AddVersionSeparatorPrefix v
      ↔ BeginsWith v "\x7b\x7bif") ∧
    (¬ BeginsWith v "\x7b\x7bif" →
      AddVersionSeparatorPrefix (AddVersionSeparatorPrefix v)
        = ":" ++ AddVersionSeparatorPrefix v) ∧
    (∃ pre : String, AddVersionSeparatorPrefix v = pre ++ v ∧ pre.length ≤ 1) ∧
    (AddVersionSeparatorPrefix v).length ≤ v.length + 1 := by
  by_cases ht : HasPrefix v "\x7b\x7bif" = true
  · have hs := template_not_sha v ht
    have hv : AddVersionSeparatorPrefix v = v := by
      simp [AddVersionSeparatorPrefix, hs, ht]
    have hb := (hasPrefix_iff v "\x7b\x7bif").1 ht
    refine ⟨⟨fun _ => hb, fun _ => by rw [hv, hv]⟩, fun hn => absurd hb hn,
      ⟨"", by rw [hv]; simp, by decide⟩, by rw [hv]; omega⟩
  · have hnb : ¬ BeginsWith v "\x7b\x7bif" := fun hb => ht ((hasPrefix_iff _ _).2 hb)
    have ht2 : HasPrefix v "\x7b\x7bif" = false := by simpa using ht
    by_cases hs : HasPrefix v "sha256:" = true
    · have hv : AddVersionSeparatorPrefix v = "@" ++ v := by
        simp [AddVersionSeparatorPrefix, hs]
      have h2 := addVersionSeparatorPrefix_of_at v
      refine ⟨⟨fun heq => ?_, fun hb => absurd hb hnb⟩, fun _ => by rw [hv, h2],
        ⟨"@", hv, by decide⟩, ?_⟩
      · rw [hv, h2] at heq
        exact absurd heq (colon_append_ne _)
      · rw [hv, String.length_append]
        have : ("@" : String).length = 1 := by decide
        omega
    · have hs2 : HasPrefix v "sha256:" = false := by simpa using hs
      have hv : AddVersionSeparatorPrefix v = ":" ++ v := by
        simp [AddVersionSeparatorPrefix, hs2, ht2]
      have h2 := addVersionSeparatorPrefix_of_colon v
      refine ⟨⟨fun heq => ?_, fun hb => absurd hb hnb⟩, fun _ => by rw [hv, h2],
        ⟨":", hv, by decide⟩, ?_⟩
      · rw [hv, h2] at heq
        exact absurd heq (colon_append_ne _)
      · rw [hv, String.length_append]
        have : (":" : String).length = 1 := by decide
        omega

/-- C19 (witness): the tag "1.2.3" does not begin with the template marker, and
a second application gives "::1.2.3". -/
theorem addVersionSeparatorPrefix_idempotent_iff_witness :
    ¬ BeginsWith "1.2.3" "\x7b\x7bif" ∧
    AddVersionSeparatorPrefix (AddVersionSeparatorPrefix "1.2.3")
      = ":" ++ AddVersionSeparatorPrefix "1.2.3" := by
  have hn : ¬ BeginsWith "1.2.3" "\x7b\x7bif" := by
    rw [← hasPrefix_iff]; decide
  exact ⟨hn, (addVersionSeparatorPrefix_idempotent_iff "1.2.3").2.1 hn⟩

/-! ## Disruption budget: deep copy of the selector -/

namespace Mem

theorem getD_append_new {α : Type} (l rest : List α) (x d : α) :
    (l ++ x :: rest).getD l.length d = x := by
  rw [List.getD_eq_getElem?_getD, List.getElem?_append_right (Nat.le_refl _)]
  simp

theorem getD_append_old {α : Type} (l rest : List α) (a : Nat) (d : α) (h : a < l.length) :
    (l ++ rest).getD a d = l.getD a d := by
  simp [List.getD_eq_getElem?_getD, List.getElem?_append_left h]

theorem getD_of_get?_eq {α : Type} (l1 l2 : List α) (a : Nat) (d : α)
    (h : l1.get? a = l2.get? a) : l1.getD a d = l2.getD a d := by
  simp only [List.get?_eq_getElem?] at h
  simp only [List.getD_eq_getElem?_getD, h]

/-- What the loop over the requirements allocates and returns. -/
theorem copyRequirements_spec (rs : List RequirementCell) :
    ∀ m : Memory, (rs.all (validRequirement m) = true) →
      (copyRequirements m rs).1.selectors = m.selectors ∧
      (copyRequirements m rs).1.maps = m.maps ∧
      (copyRequirements m rs).1.requirements = m.requirements ∧
      (∃ added, (copyRequirements m rs).1.strings = m.strings ++ added) ∧
      ∀ after : Memory,
        (∀ a, m.strings.length ≤ a → a < (copyRequirements m rs).1.strings.length →
          after.strings.get? a = (copyRequirements m rs).1.strings.get? a) →
        (copyRequirements m rs).2.map (readRequirement after) = rs.map (readRequirement m) := by
  induction rs with
  | nil =>
    intro m _
    exact ⟨rfl, rfl, rfl, ⟨[], by simp [copyRequirements]⟩, fun _ _ => rfl⟩
  | cons r rs ih =>
    intro m hvalid
    simp only [List.all_cons, Bool.and_eq_true] at hvalid
    obtain ⟨hr, hrs⟩ := hvalid
    cases hv : r.Values with
    | none =>
      have hstep : RequirementCell.DeepCopy m r = (m, r) := by
        simp [RequirementCell.DeepCopy, hv]
      obtain ⟨h1, h2, h3, ⟨added, h4⟩, h5⟩ := ih m hrs
      simp only [copyRequirements, hstep]
      refine ⟨h1, h2, h3, ⟨added, h4⟩, fun after hkeep => ?_⟩
      simp only [List.map_cons]
      rw [h5 after hkeep]
      simp [readRequirement, hv]
    | some a =>
      have ha : a < m.strings.length := by
        simpa [validRequirement, hv] using hr
      have hstep : RequirementCell.DeepCopy m r =
          ({ m with strings := m.strings ++ [m.strings.getD a []] },
           { r with Values := some m.strings.length }) := by
        simp [RequirementCell.DeepCopy, hv]
      have hrs1 : rs.all (validRequirement
          { m with strings := m.strings ++ [m.strings.getD a []] }) = true := by
        rw [List.all_eq_true] at hrs ⊢
        intro x hx
        have := hrs x hx
        cases hxv : x.Values with
        | none => simp [validRequirement, hxv]
        | some b =>
          simp [validRequirement, hxv] at this ⊢
          omega
      obtain ⟨h1, h2, h3, ⟨added, h4⟩, h5⟩ :=
        ih { m with strings := m.strings ++ [m.strings.getD a []] } hrs1
      simp only [copyRequirements, hstep]
      refine ⟨h1, h2, h3, ⟨m.strings.getD a [] :: added, by rw [h4]; simp⟩,
        fun after hkeep => ?_⟩
      simp only [List.map_cons]
      rw [h4] at hkeep
      have hkeep1 : ∀ b, (m.strings ++ [m.strings.getD a []]).length ≤ b →
          b < (copyRequirements { m with strings := m.strings ++ [m.strings.getD a []] }
            rs).1.strings.length →
          after.strings.get? b = (copyRequirements
            { m with strings := m.strings ++ [m.strings.getD a []] } rs).1.strings.get? b := by
        intro b hb1 hb2
        rw [h4] at hb2 ⊢
        apply hkeep b _ hb2
        simp at hb1
        omega
      rw [h5 after hkeep1]
      have hnew : after.strings.getD m.strings.length [] = m.strings.getD a [] := by
        have := hkeep m.strings.length (Nat.le_refl _) (by simp)
        rw [getD_of_get?_eq _ _ _ _ this]
        rw [List.append_assoc]
        exact getD_append_new _ _ _ _
      have hrest : rs.map (readRequirement
          { m with strings := m.strings ++ [m.strings.getD a []] })
          = rs.map (readRequirement m) := by
        apply List.map_congr_left
        intro x hx
        have hxvalid := (List.all_eq_true.1 hrs) x hx
        cases hxv : x.Values with
        | none => simp [readRequirement, hxv]
        | some b =>
          have hb : b < m.strings.length := by simpa [validRequirement, hxv] using hxvalid
          simp only [readRequirement, hxv]
          rw [getD_append_old _ _ _ _ hb]
      rw [hrest]
      congr 1
      simp only [readRequirement, hv, hnew]

theorem readRequirement_congr (m1 m2 : Memory) (h : m1.strings = m2.strings) :
    readRequirement m1 = readRequirement m2 := by
  funext r
  simp [readRequirement, h]

theorem validRequirement_congr (m1 m2 : Memory) (h : m1.strings = m2.strings) :
    validRequirement m1 = validRequirement m2 := by
  funext r
  simp [validRequirement, h]

theorem map_pair_eta (l : GoMap) : l.map (fun e => (e.1, e.2)) = l := by
  simp

/-- What `DeepCopyInto` allocates, and how the struct it fills reads. -/
theorem deepCopyInto_spec (m : Memory) (src : SelectorCell) (hvalid : validCell m src = true) :
    (SelectorCell.DeepCopyInto m src).1.selectors = m.selectors ∧
    (∃ s2 s3 s4,
      (SelectorCell.DeepCopyInto m src).1.maps = m.maps ++ s2 ∧
      (SelectorCell.DeepCopyInto m src).1.requirements = m.requirements ++ s3 ∧
      (SelectorCell.DeepCopyInto m src).1.strings = m.strings ++ s4) ∧
    ∀ after : Memory,
      (∀ a, m.maps.length ≤ a → a < (SelectorCell.DeepCopyInto m src).1.maps.length →
        after.maps.get? a = (SelectorCell.DeepCopyInto m src).1.maps.get? a) →
      (∀ a, m.requirements.length ≤ a →
        a < (SelectorCell.DeepCopyInto m src).1.requirements.length →
        after.requirements.get? a = (SelectorCell.DeepCopyInto m src).1.requirements.get? a) →
      (∀ a, m.strings.length ≤ a → a < (SelectorCell.DeepCopyInto m src).1.strings.length →
        after.strings.get? a = (SelectorCell.DeepCopyInto m src).1.strings.get? a) →
      readCell after (SelectorCell.DeepCopyInto m src).2 = readCell m src := by
  obtain ⟨labels, exprs⟩ := src
  simp only [validCell, Bool.and_eq_true] at hvalid
  obtain ⟨hlabels, hexprs⟩ := hvalid
  cases labels with
  | none =>
    cases exprs with
    | none =>
      refine ⟨rfl, ⟨[], [], [], by simp [SelectorCell.DeepCopyInto]⟩, fun after _ _ _ => rfl⟩
    | some ar =>
      simp only [Bool.and_eq_true, decide_eq_true_eq] at hexprs
      obtain ⟨har, hrs⟩ := hexprs
      obtain ⟨h1, h2, h3, ⟨added, h4⟩, h5⟩ :=
        copyRequirements_spec (m.requirements.getD ar []) m hrs
      have hmem : (SelectorCell.DeepCopyInto m ⟨none, some ar⟩).1 =
          { (copyRequirements m (m.requirements.getD ar [])).1 with
            requirements := m.requirements ++ [(copyRequirements m (m.requirements.getD ar [])).2] } := by
        simp only [SelectorCell.DeepCopyInto, h3]
      have hout : (SelectorCell.DeepCopyInto m ⟨none, some ar⟩).2 =
          ⟨none, some m.requirements.length⟩ := by
        simp only [SelectorCell.DeepCopyInto, h3]
      rw [hmem, hout]
      refine ⟨h1, ⟨[], _, added, by rw [List.append_nil]; exact h2, rfl, h4⟩,
        fun after _ hkr hks => ?_⟩
      have hnew : after.requirements.getD m.requirements.length []
          = (copyRequirements m (m.requirements.getD ar [])).2 := by
        rw [getD_of_get?_eq _ _ _ _ (hkr m.requirements.length (Nat.le_refl _) (by simp))]
        exact getD_append_new _ _ _ _
      simp only [readCell, hnew]
      rw [h5 after hks]
  | some am =>
    have hcopy : (m.maps.getD am []).map (fun e => (e.1, e.2)) = m.maps.getD am [] :=
      map_pair_eta _
    cases exprs with
    | none =>
      have hmem : (SelectorCell.DeepCopyInto m ⟨some am, none⟩).1 =
          { m with maps := m.maps ++ [m.maps.getD am []] } := by
        simp only [SelectorCell.DeepCopyInto, hcopy]
      have hout : (SelectorCell.DeepCopyInto m ⟨some am, none⟩).2 = ⟨some m.maps.length, none⟩ := by
        simp only [SelectorCell.DeepCopyInto]
      rw [hmem, hout]
      refine ⟨rfl, ⟨_, [], [], rfl, by simp, by simp⟩, fun after hkm _ _ => ?_⟩
      have hnew : after.maps.getD m.maps.length [] = m.maps.getD am [] := by
        rw [getD_of_get?_eq _ _ _ _ (hkm m.maps.length (Nat.le_refl _) (by simp))]
        exact getD_append_new _ _ _ _
      simp only [readCell, hnew, List.map_nil]
    | some ar =>
      simp only [Bool.and_eq_true, decide_eq_true_eq] at hexprs
      obtain ⟨har, hrs⟩ := hexprs
      have hrs1 : (m.requirements.getD ar []).all
          (validRequirement { m with maps := m.maps ++ [m.maps.getD am []] }) = true := by
        rw [validRequirement_congr { m with maps := m.maps ++ [m.maps.getD am []] } m rfl]
        exact hrs
      obtain ⟨h1, h2, h3, ⟨added, h4⟩, h5⟩ :=
        copyRequirements_spec (m.requirements.getD ar [])
          { m with maps := m.maps ++ [m.maps.getD am []] } hrs1
      dsimp only at h1 h2 h3 h4 h5
      have hmem : (SelectorCell.DeepCopyInto m ⟨some am, some ar⟩).1 =
          { (copyRequirements { m with maps := m.maps ++ [m.maps.getD am []] }
              (m.requirements.getD ar [])).1 with
            requirements := m.requirements ++
              [(copyRequirements { m with maps := m.maps ++ [m.maps.getD am []] }
                (m.requirements.getD ar [])).2] } := by
        simp only [SelectorCell.DeepCopyInto, hcopy, h3]
      have hout : (SelectorCell.DeepCopyInto m ⟨some am, some ar⟩).2 =
          ⟨some m.maps.length, some m.requirements.length⟩ := by
        simp only [SelectorCell.DeepCopyInto, hcopy, h3]
      rw [hmem, hout]
      refine ⟨h1, ⟨_, _, added, h2, rfl, h4⟩, fun after hkm hkr hks => ?_⟩
      have hnewm : after.maps.getD m.maps.length [] = m.maps.getD am [] := by
        have hk := hkm m.maps.length (Nat.le_refl _)
          (by show m.maps.length < (copyRequirements _ _).1.maps.length; rw [h2]; simp)
        rw [getD_of_get?_eq _ _ _ _ hk]
        show (copyRequirements _ _).1.maps.getD _ _ = _
        rw [h2]
        exact getD_append_new _ _ _ _
      have hnewr : after.requirements.getD m.requirements.length []
          = (copyRequirements { m with maps := m.maps ++ [m.maps.getD am []] }
              (m.requirements.getD ar [])).2 := by
        rw [getD_of_get?_eq _ _ _ _ (hkr m.requirements.length (Nat.le_refl _) (by simp))]
        exact getD_append_new _ _ _ _
      simp only [readCell, hnewm, hnewr]
      rw [h5 after hks,
        readRequirement_congr { m with maps := m.maps ++ [m.maps.getD am []] } m rfl]

/-- A memory keeps the cells it holds. -/
theorem keepsNewCells_refl (m built : Memory) : KeepsNewCells m built built :=
  ⟨fun _ _ _ => rfl, fun _ _ _ => rfl, fun _ _ _ => rfl, fun _ _ _ => rfl⟩

theorem get?_append_old {α : Type} (l rest : List α) (a : Nat) (h : a < l.length) :
    (l ++ rest).get? a = l.get? a := by
  simp [List.getElem?_append_left h]

theorem readCell_extend (m m1 : Memory) (cell : SelectorCell)
    (hm : ∃ s, m1.maps = m.maps ++ s) (hr : ∃ s, m1.requirements = m.requirements ++ s)
    (hs : ∃ s, m1.strings = m.strings ++ s) (hvalid : validCell m cell = true) :
    readCell m1 cell = readCell m cell ∧ validCell m1 cell = true := by
  obtain ⟨s2, hm⟩ := hm
  obtain ⟨s3, hr⟩ := hr
  obtain ⟨s4, hs⟩ := hs
  have hreq : ∀ r, validRequirement m r = true →
      readRequirement m1 r = readRequirement m r ∧ validRequirement m1 r = true := by
    intro r hr0
    cases hv : r.Values with
    | none => simp [readRequirement, validRequirement, hv]
    | some b =>
      have hb : b < m.strings.length := by simpa [validRequirement, hv] using hr0
      constructor
      · simp only [readRequirement, hv, hs]
        rw [getD_append_old _ _ _ _ hb]
      · simp only [validRequirement, hv, hs, List.length_append, decide_eq_true_eq]
        omega
  have hmap : ∀ am, am < m.maps.length →
      m1.maps.getD am [] = m.maps.getD am [] ∧ am < m1.maps.length := by
    intro am ham
    refine ⟨by rw [hm]; exact getD_append_old _ _ _ _ ham, ?_⟩
    rw [hm, List.length_append]; omega
  have hexp : ∀ ar, ar < m.requirements.length →
      (m.requirements.getD ar []).all (validRequirement m) = true →
      (m1.requirements.getD ar []).map (readRequirement m1)
        = (m.requirements.getD ar []).map (readRequirement m) ∧
      ar < m1.requirements.length ∧
      (m1.requirements.getD ar []).all (validRequirement m1) = true := by
    intro ar har hrs
    have hget : m1.requirements.getD ar [] = m.requirements.getD ar [] := by
      rw [hr]; exact getD_append_old _ _ _ _ har
    rw [List.all_eq_true] at hrs
    refine ⟨?_, by rw [hr, List.length_append]; omega, ?_⟩
    · rw [hget]
      apply List.map_congr_left
      intro x hx
      exact (hreq x (hrs x hx)).1
    · rw [hget, List.all_eq_true]
      exact fun x hx => (hreq x (hrs x hx)).2
  obtain ⟨labels, exprs⟩ := cell
  simp only [validCell, Bool.and_eq_true] at hvalid
  obtain ⟨hlabels, hexprs⟩ := hvalid
  cases labels with
  | none =>
    cases exprs with
    | none => exact ⟨rfl, rfl⟩
    | some ar =>
      simp only [Bool.and_eq_true, decide_eq_true_eq] at hexprs
      obtain ⟨h1, h2, h3⟩ := hexp ar hexprs.1 hexprs.2
      constructor
      · simp only [readCell, h1]
      · simp only [validCell, h3, Bool.and_eq_true, decide_eq_true_eq, h2, and_self]
  | some am =>
    simp only [decide_eq_true_eq] at hlabels
    obtain ⟨g1, g2⟩ := hmap am hlabels
    cases exprs with
    | none =>
      constructor
      · simp only [readCell, g1, List.map_nil]
      · simp only [validCell, Bool.and_eq_true, decide_eq_true_eq, g2, and_self]
    | some ar =>
      simp only [Bool.and_eq_true, decide_eq_true_eq] at hexprs
      obtain ⟨h1, h2, h3⟩ := hexp ar hexprs.1 hexprs.2
      constructor
      · simp only [readCell, g1, h1]
      · simp only [validCell, h3, Bool.and_eq_true, decide_eq_true_eq, h2, g2, and_self]

/-- What `DeepCopy` allocates, and how its result reads: in every memory that
keeps the new cells, the copy reads as the source read before the call. -/
theorem deepCopy_spec (m : Memory) (sel : Option Nat) (hvalid : validSelector m sel = true) :
    ((∃ s, (DeepCopy m sel).1.selectors = m.selectors ++ s) ∧
      (∃ s, (DeepCopy m sel).1.maps = m.maps ++ s) ∧
      (∃ s, (DeepCopy m sel).1.requirements = m.requirements ++ s) ∧
      (∃ s, (DeepCopy m sel).1.strings = m.strings ++ s)) ∧
    ∀ after : Memory, KeepsNewCells m (DeepCopy m sel).1 after →
      readSelector after (DeepCopy m sel).2 = readSelector m sel := by
  cases sel with
  | none =>
    exact ⟨⟨⟨[], by simp [DeepCopy]⟩, ⟨[], by simp [DeepCopy]⟩, ⟨[], by simp [DeepCopy]⟩,
      ⟨[], by simp [DeepCopy]⟩⟩, fun _ _ => rfl⟩
  | some a =>
    simp only [validSelector, Bool.and_eq_true, decide_eq_true_eq] at hvalid
    obtain ⟨_, hcellvalid⟩ := hvalid
    obtain ⟨h1, ⟨s2, s3, s4, h2, h3, h4⟩, h5⟩ :=
      deepCopyInto_spec m (m.selectors.getD a {}) hcellvalid
    have hmem : (DeepCopy m (some a)).1 =
        { (SelectorCell.DeepCopyInto m (m.selectors.getD a {})).1 with
          selectors := m.selectors ++ [(SelectorCell.DeepCopyInto m (m.selectors.getD a {})).2] } := by
      simp only [DeepCopy, h1]
    have hout : (DeepCopy m (some a)).2 = some m.selectors.length := by
      simp only [DeepCopy, h1]
    rw [hmem, hout]
    refine ⟨⟨⟨_, rfl⟩, ⟨s2, h2⟩, ⟨s3, h3⟩, ⟨s4, h4⟩⟩, fun after hkeep => ?_⟩
    obtain ⟨hk1, hk2, hk3, hk4⟩ := hkeep
    have hnew : after.selectors.getD m.selectors.length {}
        = (SelectorCell.DeepCopyInto m (m.selectors.getD a {})).2 := by
      rw [getD_of_get?_eq _ _ _ _ (hk1 m.selectors.length (Nat.le_refl _) (by simp))]
      exact getD_append_new _ _ _ _
    simp only [readSelector, hnew]
    rw [h5 after hk2 hk3 hk4]

theorem validSelector_extend (m m1 : Memory) (sel : Option Nat)
    (h1 : ∃ s, m1.selectors = m.selectors ++ s)
    (hm : ∃ s, m1.maps = m.maps ++ s) (hr : ∃ s, m1.requirements = m.requirements ++ s)
    (hs : ∃ s, m1.strings = m.strings ++ s) (hvalid : validSelector m sel = true) :
    readSelector m1 sel = readSelector m sel ∧ validSelector m1 sel = true := by
  cases sel with
  | none => exact ⟨rfl, rfl⟩
  | some a =>
    simp only [validSelector, Bool.and_eq_true, decide_eq_true_eq] at hvalid
    obtain ⟨ha, hcellvalid⟩ := hvalid
    obtain ⟨s1, h1⟩ := h1
    have hcell : m1.selectors.getD a {} = m.selectors.getD a {} := by
      rw [h1]; exact getD_append_old _ _ _ _ ha
    obtain ⟨g1, g2⟩ := readCell_extend m m1 (m.selectors.getD a {}) hm hr hs hcellvalid
    constructor
    · simp only [readSelector, hcell, g1]
    · simp only [validSelector, hcell, g2, Bool.and_eq_true, decide_eq_true_eq, and_true]
      rw [h1, List.length_append]; omega

theorem keepsNewCells_of_extend (m built after : Memory)
    (h1 : ∃ s, after.selectors = built.selectors ++ s)
    (h2 : ∃ s, after.maps = built.maps ++ s)
    (h3 : ∃ s, after.requirements = built.requirements ++ s)
    (h4 : ∃ s, after.strings = built.strings ++ s) : KeepsNewCells m built after := by
  obtain ⟨s1, h1⟩ := h1
  obtain ⟨s2, h2⟩ := h2
  obtain ⟨s3, h3⟩ := h3
  obtain ⟨s4, h4⟩ := h4
  refine ⟨fun a _ ha => ?_, fun a _ ha => ?_, fun a _ ha => ?_, fun a _ ha => ?_⟩
  · rw [h1]; exact get?_append_old _ _ _ ha
  · rw [h2]; exact get?_append_old _ _ _ ha
  · rw [h3]; exact get?_append_old _ _ _ ha
  · rw [h4]; exact get?_append_old _ _ _ ha

theorem getD_set_same {α : Type} (l : List α) (a : Nat) (x d : α) (h : a < l.length) :
    (l.set a x).getD a d = x := by
  simp [List.getD_eq_getElem?_getD, List.getElem?_set_self h]

theorem get?_set_other {α : Type} (l : List α) (a b : Nat) (x : α) (h : a ≠ b) :
    (l.set a x).get? b = l.get? b := by
  simp [List.getElem?_set_ne h]

/-- Effect of `sel.MatchLabels[key] = value` on a memory `built` that extends
`m`, through a pointer that is valid in `m`: the cells allocated after `m` are
kept, and the selector read through the pointer has the changed map. -/
theorem setMatchLabel_spec (m built after : Memory) (sel : Option Nat) (key value : String)
    (h1 : ∃ s, built.selectors = m.selectors ++ s)
    (hm : ∃ s, built.maps = m.maps ++ s) (hvalid : validSelector m sel = true)
    (hset : setMatchLabel built sel key value = .ok after) :
    KeepsNewCells m built after ∧
    (readSelector after sel).map (fun s => s.MatchLabels)
      = (readSelector built sel).map (fun s => s.MatchLabels.set key value) := by
  cases sel with
  | none =>
    simp only [setMatchLabel] at hset
    cases hset
  | some a =>
    have hv := hvalid
    simp only [validSelector, Bool.and_eq_true, decide_eq_true_eq] at hv
    obtain ⟨ha, hcellvalid⟩ := hv
    obtain ⟨s1, h1⟩ := h1
    have hcell : built.selectors.getD a {} = m.selectors.getD a {} := by
      rw [h1]; exact getD_append_old _ _ _ _ ha
    cases hlabels : (m.selectors.getD a {}).MatchLabels with
    | none =>
      simp only [setMatchLabel, hcell, hlabels] at hset
      cases hset
    | some am =>
      have ham : am < m.maps.length := by
        simp only [validCell, hlabels, Bool.and_eq_true, decide_eq_true_eq] at hcellvalid
        exact hcellvalid.1
      obtain ⟨s2, hm⟩ := hm
      have hafter : after =
          { built with maps := built.maps.set am ((built.maps.getD am []).set key value) } := by
        simp only [setMatchLabel, hcell, hlabels] at hset
        injection hset with hset
        exact hset.symm
      have hamb : am < built.maps.length := by
        rw [hm, List.length_append]; omega
      subst hafter
      refine ⟨⟨fun _ _ _ => rfl, fun b hb _ => ?_, fun _ _ _ => rfl, fun _ _ _ => rfl⟩, ?_⟩
      · exact get?_set_other _ _ _ _ (by omega)
      · simp only [readSelector, Option.map_some', readCell, hcell, hlabels]
        rw [getD_set_same _ _ _ _ hamb]

/-- The embedding over a memory agrees with the embedding over values: the
budget read from the memory left by the build is the budget that the value-level
builder returns for the deployment read before the build. -/
theorem budget_refines_values (k : Consts) (m : Memory) (d : DeploymentRef)
    (hvalid : validSelector m d.Selector = true) :
    readBudget (NewPodDisruptionBudgetForDeployment k m d).1
        (NewPodDisruptionBudgetForDeployment k m d).2
      = Components.NewPodDisruptionBudgetForDeployment k (readDeployment m d) := by
  have hbuilt : readSelector (DeepCopy m d.Selector).1 (DeepCopy m d.Selector).2
      = readSelector m d.Selector :=
    (deepCopy_spec m d.Selector hvalid).2 _ (keepsNewCells_refl _ _)
  simp only [readBudget, NewPodDisruptionBudgetForDeployment, hbuilt,
    Components.NewPodDisruptionBudgetForDeployment, readDeployment, deepCopy_eq]

/-- C17: let a deployment hold a valid selector pointer. Building the budget
twice, the second time in the memory left by the first, gives two budgets that
read as equal values. The selector of a built budget reads as the deployment's
selector read before the build, in every later memory that keeps the cells
allocated by the build, whatever was done to the cells of the source. In
particular, after `Spec.Selector.MatchLabels[key] = value` on the source, the
budget's selector reads as before, while the deployment's selector reads with
the changed map. -/
theorem budget_is_deep_copy (k : Consts) (m : Memory) (d : DeploymentRef)
    (hvalid : validSelector m d.Selector = true) :
    (readBudget (NewPodDisruptionBudgetForDeployment k
          (NewPodDisruptionBudgetForDeployment k m d).1 d).1
        (NewPodDisruptionBudgetForDeployment k m d).2
      = readBudget (NewPodDisruptionBudgetForDeployment k
          (NewPodDisruptionBudgetForDeployment k m d).1 d).1
        (NewPodDisruptionBudgetForDeployment k
          (NewPodDisruptionBudgetForDeployment k m d).1 d).2) ∧
    (∀ after : Memory, KeepsNewCells m (NewPodDisruptionBudgetForDeployment k m d).1 after →
      readSelector after (NewPodDisruptionBudgetForDeployment k m d).2.Selector
        = readSelector m d.Selector) ∧
    (∀ (key value : String) (after : Memory),
      setMatchLabel (NewPodDisruptionBudgetForDeployment k m d).1 d.Selector key value
        = .ok after →
      readSelector after (NewPodDisruptionBudgetForDeployment k m d).2.Selector
        = readSelector (NewPodDisruptionBudgetForDeployment k m d).1
            (NewPodDisruptionBudgetForDeployment k m d).2.Selector ∧
      readSelector after (NewPodDisruptionBudgetForDeployment k m d).2.Selector
        = readSelector m d.Selector ∧
      (readSelector after d.Selector).map (fun s => s.MatchLabels)
        = (readSelector m d.Selector).map (fun s => s.MatchLabels.set key value)) := by
  obtain ⟨⟨e1, e2, e3, e4⟩, hread⟩ := deepCopy_spec m d.Selector hvalid
  obtain ⟨hread1, hvalid1⟩ :=
    validSelector_extend m (DeepCopy m d.Selector).1 d.Selector e1 e2 e3 e4 hvalid
  obtain ⟨⟨f1, f2, f3, f4⟩, hreadB⟩ := deepCopy_spec (DeepCopy m d.Selector).1 d.Selector hvalid1
  have hbuilt : readSelector (DeepCopy m d.Selector).1 (DeepCopy m d.Selector).2
      = readSelector m d.Selector := hread _ (keepsNewCells_refl _ _)
  refine ⟨?_, fun after hkeep => hread after hkeep, fun key value after hset => ?_⟩
  · have hfirst := hread (DeepCopy (DeepCopy m d.Selector).1 d.Selector).1
      (keepsNewCells_of_extend _ _ _ f1 f2 f3 f4)
    have hsecond := hreadB (DeepCopy (DeepCopy m d.Selector).1 d.Selector).1
      (keepsNewCells_refl _ _)
    simp only [readBudget, NewPodDisruptionBudgetForDeployment, hfirst, hsecond, hread1]
  · obtain ⟨hkeep, hsrc⟩ := setMatchLabel_spec m (DeepCopy m d.Selector).1 after d.Selector
      key value e1 e2 hvalid hset
    have hafter := hread after hkeep
    rw [hread1] at hsrc
    exact ⟨hafter.trans hbuilt.symm, hafter, hsrc⟩

/-- C17 (witness): in the sample memory, the selector of the sample deployment
is valid; after the budget is built and the label "kubevirt.io" of the source is
set to "changed", the budget's selector still reads with "virt-api". -/
theorem budget_is_deep_copy_witness :
    validSelector sampleMemory sampleDeployment.Selector = true ∧
    ∃ after,
      setMatchLabel (NewPodDisruptionBudgetForDeployment kubevirtConsts sampleMemory
        sampleDeployment).1 sampleDeployment.Selector "kubevirt.io" "changed" = .ok after ∧
      (readSelector after (NewPodDisruptionBudgetForDeployment kubevirtConsts sampleMemory
        sampleDeployment).2.Selector).map (fun s => s.MatchLabels)
        = some [("kubevirt.io", "virt-api")] ∧
      (readSelector after sampleDeployment.Selector).map (fun s => s.MatchLabels)
        = some [("kubevirt.io", "changed")] := by
  refine ⟨by decide, _, rfl, ?_⟩
  obtain ⟨_, _, hmut⟩ :=
    budget_is_deep_copy kubevirtConsts sampleMemory sampleDeployment (by decide)
  obtain ⟨_, h2, h3⟩ := hmut "kubevirt.io" "changed" _ rfl
  rw [h2, h3]
  exact ⟨by decide, by decide⟩

end Mem

end Components
